import Mathlib

/-
  Verification development for the workout-tracker analytics engine
  (analytics-python/services): the one-rep-max formula layer, the anomaly
  detector and health score, the strength predictor, and the training
  recommender.

  Modelling conventions:
  - Python floats are modelled as exact rationals wherever the source only
    performs field operations on them; the places where the source computes
    genuinely irrational values (the lombardi power, the mayhew exponential,
    standard deviations) are modelled over the reals.
  - pandas tables are modelled as lists of records; a NaN cell is an
    Option-valued field holding none.  pandas mean/std skip NaN cells.
  - In-place DataFrame column assignment is modelled by state passing: each
    engine entry point returns the post-call value of every caller-supplied
    table next to its result.
-/

namespace WorkoutTracker

/-! ## Rational helpers shared by the engines -/

/-- Python round: round-half-to-even on rationals (the CPython builtin). -/
def pyRoundQ (x : ℚ) : ℤ :=
  if x - (⌊x⌋ : ℚ) = 1/2 then (if Even ⌊x⌋ then ⌊x⌋ else ⌊x⌋ + 1) else round x

/-- Python int(): truncation toward zero on rationals. -/
def pyIntQ (x : ℚ) : ℤ := if 0 ≤ x then ⌊x⌋ else -⌊-x⌋

/-- Mean of a list of rationals (pandas Series.mean on a NaN-free column);
0 on the empty list, a case the call sites rule out. -/
def qMean (l : List ℚ) : ℚ := l.sum / l.length

/-- Sample variance with ddof = 1 (the pandas Series.var/std default),
as an Option: none when fewer than 2 observations (pandas yields NaN). -/
def qVarO (l : List ℚ) : Option ℚ :=
  if l.length < 2 then none
  else some ((l.map (fun x => (x - qMean l)^2)).sum / (l.length - 1 : ℕ))

/-- Population variance with ddof = 0 (numpy default, used by StandardScaler). -/
def qPopVar (l : List ℚ) : ℚ := (l.map (fun x => (x - qMean l)^2)).sum / l.length

/-- Mean over the non-null entries of a nullable column (pandas skipna mean);
none when every entry is null (pandas yields NaN). -/
def qMeanO (l : List (Option ℚ)) : Option ℚ :=
  let vals := l.filterMap id
  if vals.isEmpty then none else some (qMean vals)

/-! ## The one-rep-max formula layer (strength_predictor.calculate_1rm)

The lombardi formula takes a real power and the mayhew formula an
exponential, so this layer is modelled over the reals. -/

noncomputable def epley (weight : ℚ) (reps : ℤ) : ℝ :=
  (weight : ℝ) * (1 + (reps : ℝ) / 30)

noncomputable def brzycki (weight : ℚ) (reps : ℤ) : ℝ :=
  if reps < 37 then (weight : ℝ) * (36 / (37 - (reps : ℝ))) else (weight : ℝ) * 2

noncomputable def lombardi (weight : ℚ) (reps : ℤ) : ℝ :=
  (weight : ℝ) * (reps : ℝ) ^ (0.10 : ℝ)

noncomputable def oconner (weight : ℚ) (reps : ℤ) : ℝ :=
  (weight : ℝ) * (1 + (reps : ℝ) / 40)

noncomputable def mayhew (weight : ℚ) (reps : ℤ) : ℝ :=
  (weight : ℝ) * (100 / (52.2 + 41.9 * Real.exp (-0.055 * (reps : ℝ))))

/-- strength_predictor.calculate_1rm.  The source checks reps == 1 first,
then the degenerate guard, then builds the five-entry formula dict; the
"average" branch takes np.mean of all five dict values, and an unknown
formula name falls back to epley. -/
noncomputable def calculate_1rm (weight : ℚ) (reps : ℤ) (formula : String) : ℝ :=
  if reps = 1 then (weight : ℝ)
  else if reps < 1 ∨ weight ≤ 0 then 0
  else if formula = "average" then
    (epley weight reps + brzycki weight reps + lombardi weight reps +
      oconner weight reps + mayhew weight reps) / 5
  else if formula = "epley" then epley weight reps
  else if formula = "brzycki" then brzycki weight reps
  else if formula = "lombardi" then lombardi weight reps
  else if formula = "oconner" then oconner weight reps
  else if formula = "mayhew" then mayhew weight reps
  else epley weight reps

/-- The average the specification describes: the arithmetic mean of exactly
the four values epley, brzycki, lombardi, oconner, with mayhew excluded.
Stated from the spec text, to be compared against calculate_1rm. -/
noncomputable def specAverageOfFour (weight : ℚ) (reps : ℤ) : ℝ :=
  (epley weight reps + brzycki weight reps + lombardi weight reps +
    oconner weight reps) / 4

/-! ## The session table

A workout_date cell is either the raw value the caller stored (an ISO date
string, lexicographically ordered exactly like its day number) or the
datetime pd.to_datetime produces from it; the constructor records which,
so that an in-place to_datetime column assignment is observable. -/

inductive DateVal
  | raw (dayNum : ℤ)
  | parsed (dayNum : ℤ)
deriving DecidableEq, Repr

def DateVal.day : DateVal → ℤ
  | .raw d => d
  | .parsed d => d

/-- pd.to_datetime on one cell. -/
def DateVal.toDatetime (v : DateVal) : DateVal := .parsed v.day

/-- One row of the per-session table fed to the engines (the routers build
it with these columns; a NaN cell is none, total_volume is fillna(0)). -/
structure SessionRow where
  id : ℕ
  workout_date : DateVal
  max_weight : Option ℚ := none
  reps_at_max_weight : Option ℤ := none
  total_volume : ℚ := 0
  avg_rpe : Option ℚ := none
  perceived_exertion : Option ℚ := none
  estimated_1rm : Option ℚ := none
deriving DecidableEq, Repr

/-- Stable insertion step: before y x means y stays in front of the element
x being inserted.  With a strict key comparison this yields a stable sort. -/
def sInsert {α : Type} (before : α → α → Bool) (x : α) : List α → List α
  | [] => [x]
  | y :: ys => if before y x then y :: sInsert before x ys else x :: y :: ys

/-- Stable sort (models pandas sort_values on unique keys and the stable
Python list.sort). -/
def sSort {α : Type} (before : α → α → Bool) : List α → List α
  | [] => []
  | x :: xs => sInsert before x (sSort before xs)

def dateBefore (a b : SessionRow) : Bool := decide (a.workout_date.day < b.workout_date.day)

/-- df.sort_values('workout_date'): ascending by date; ISO date strings
sort lexicographically in day order, so sorting before or after
pd.to_datetime gives the same order. -/
def sortValuesByDate (df : List SessionRow) : List SessionRow := sSort dateBefore df

/-- Day gaps between consecutive rows: df['workout_date'].diff() restricted
to the rows where it is defined (the first row's NaN gap is dropped). -/
def dayGaps (df : List SessionRow) : List ℚ :=
  (df.zip df.tail).map (fun p => ((p.2.workout_date.day - p.1.workout_date.day : ℤ) : ℚ))

/-! ## AnomalyDetector (anomaly_detector.py)

The z-score tests divide by a standard deviation; since every test only
compares z against a threshold, they are stated with the squared form
over ℚ: for std = sqrt v with v > 0 and t ≥ 0,
(x - m)/std > t holds iff m < x and t^2 * v < (x - m)^2.
The message and details payloads of the emitted dicts carry only rounded
presentation copies of these quantities and are not modelled. -/

/-- z > t, for z = (x - m)/sqrt v with v > 0, t ≥ 0. -/
def zAbove (x m v t : ℚ) : Bool := decide (m < x) && decide (t^2 * v < (x - m)^2)

/-- z < -t, for z = (x - m)/sqrt v with v > 0, t ≥ 0. -/
def zBelow (x m v t : ℚ) : Bool := decide (x < m) && decide (t^2 * v < (m - x)^2)

inductive Severity
  | low
  | medium
  | high
deriving DecidableEq, Repr

inductive AnomalyType
  | performance_drop
  | performance_spike
  | volume_spike
  | volume_drop
  | high_fatigue
  | long_gap
deriving DecidableEq, Repr

structure Anomaly where
  type : AnomalyType
  date : ℤ
  severity : Severity
deriving DecidableEq, Repr

def anomalyBefore (a b : Anomaly) : Bool := decide (b.date < a.date)

/-- The values inside the trailing 5-row window ending at index i,
NaN cells dropped (pandas rolling skips NaN inside the window). -/
def rollingVals (l : List (Option ℚ)) (i : ℕ) : List ℚ :=
  ((l.take (i+1)).drop (i+1-5)).filterMap id

/-- Rolling sample variance (window 5, min_periods 2, ddof 1): none when
fewer than 2 observations, exactly when the rolling mean and std are NaN. -/
def rollingVarO (l : List (Option ℚ)) (i : ℕ) : Option ℚ := qVarO (rollingVals l i)

/-- The performance anomaly _detect_performance_anomalies emits for row i,
if any: rows whose rolling mean/std is NaN are skipped, rows with rolling
std exactly 0 are skipped, and a NaN estimated_1rm satisfies neither
z comparison. -/
def perfAnomalyAt (t : ℚ) (df : List SessionRow) (i : ℕ) : Option Anomaly :=
  match df[i]? with
  | none => none
  | some r =>
    match rollingVarO (df.map (·.estimated_1rm)) i with
    | none => none
    | some v =>
      if v = 0 then none
      else
        let m := qMean (rollingVals (df.map (·.estimated_1rm)) i)
        match r.estimated_1rm with
        | none => none
        | some x =>
          if zBelow x m v t then
            some ⟨.performance_drop, r.workout_date.day, if zBelow x m v 3 then .high else .medium⟩
          else if zAbove x m v t then
            some ⟨.performance_spike, r.workout_date.day, .low⟩
          else none

def detectPerformanceAnomalies (t : ℚ) (df : List SessionRow) : List Anomaly :=
  if (df.map (·.estimated_1rm)).all (· = none) then []
  else (List.range df.length).filterMap (perfAnomalyAt t df)

/-- _detect_volume_anomalies: one global mean/std of total_volume.  With
fewer than 2 rows the std is NaN and no z comparison fires; a std of
exactly 0 returns early. -/
def detectVolumeAnomalies (t : ℚ) (df : List SessionRow) : List Anomaly :=
  match qVarO (df.map (·.total_volume)) with
  | none => []
  | some v =>
    if v = 0 then []
    else
      let m := qMean (df.map (·.total_volume))
      df.filterMap (fun r =>
        if zAbove r.total_volume m v t then some ⟨.volume_spike, r.workout_date.day, .medium⟩
        else if zBelow r.total_volume m v t then some ⟨.volume_drop, r.workout_date.day, .low⟩
        else none)

/-- Forward fill, as pct_change's default fill_method='pad' applies it. -/
def padFill (prev : Option ℚ) : List (Option ℚ) → List (Option ℚ)
  | [] => []
  | none :: xs => prev :: padFill prev xs
  | some x :: xs => some x :: padFill (some x) xs

/-- performance_trend at row i: pct_change of the pad-filled series.  A
zero previous value yields an IEEE infinity or NaN in the source; for the
nonnegative 1RM values in scope neither satisfies the < -0.05 test, so it
is modelled as none. -/
def pctChangeAt (l : List (Option ℚ)) (i : ℕ) : Option ℚ :=
  if i = 0 then none
  else
    match (padFill none l)[i-1]?, (padFill none l)[i]? with
    | some (some p), some (some x) => if p = 0 then none else some ((x - p) / p)
    | _, _ => none

def peAtLeast8 (r : SessionRow) : Bool :=
  match r.perceived_exertion with
  | some q => decide (8 ≤ q)
  | none => false

def detectFatigueSignals (df : List SessionRow) : List Anomaly :=
  let rpeChecks := (List.range df.length).filterMap (fun i =>
    match df[i]? with
    | none => none
    | some r =>
      match r.avg_rpe, pctChangeAt (df.map (·.estimated_1rm)) i with
      | some rpe, some tr =>
        if 8.5 ≤ rpe ∧ tr < -0.05 then some ⟨.high_fatigue, r.workout_date.day, .medium⟩
        else none
      | _, _ => none)
  let recent := df.drop (df.length - 3)
  let peChecks :=
    if 3 ≤ recent.length ∧ recent.all (fun r => r.perceived_exertion.isSome) then
      if recent.all peAtLeast8 then
        match recent.getLast? with
        | some r => [⟨.high_fatigue, r.workout_date.day, .high⟩]
        | none => []
      else []
    else []
  rpeChecks ++ peChecks

/-- _detect_training_gaps.  With a single gap the std is NaN: the source's
isna/zero guard does not return early then, but no comparison against a NaN
threshold fires, so no anomaly is emitted either way. -/
def detectTrainingGaps (df : List SessionRow) : List Anomaly :=
  let gaps := dayGaps df
  if gaps.length < 2 then []
  else
    match qVarO gaps with
    | none => []
    | some v =>
      if v = 0 then []
      else
        let m := qMean gaps
        (df.zip df.tail).filterMap (fun p =>
          let g : ℚ := ((p.2.workout_date.day - p.1.workout_date.day : ℤ) : ℚ)
          if 14 < g ∧ zAbove g m v 2 = true then some ⟨.long_gap, p.2.workout_date.day, .low⟩
          else none)

/-- detect_anomalies: fewer than 3 sessions is an empty result; otherwise
the four detectors run on the sorted copy and the union is sorted by date
descending (Python's stable sort). -/
def detectAnomalies (t : ℚ) (df : List SessionRow) : List Anomaly :=
  if df.length < 3 then []
  else
    let d := sortValuesByDate df
    sSort anomalyBefore
      (detectPerformanceAnomalies t d ++ detectVolumeAnomalies t d ++
        detectFatigueSignals d ++ detectTrainingGaps d)

/-! ## Health score (anomaly_detector.get_health_score) -/

/-- Python round on a real value (the volume sub-score is the one place a
standard deviation enters a reported value rather than a comparison). -/
noncomputable def pyRoundR (x : ℝ) : ℤ :=
  if x - (⌊x⌋ : ℝ) = 1/2 then (if Even ⌊x⌋ then ⌊x⌋ else ⌊x⌋ + 1) else round x

/-- Consistency sub-score over the day gaps of the sorted table. -/
def consistencySubscore (gaps : List ℚ) : ℤ :=
  let avg := qMean gaps
  let variance := (qVarO gaps).getD 0
  let base : ℚ :=
    if 2 ≤ avg ∧ avg ≤ 4 then 25
    else if avg < 2 then 20
    else if avg ≤ 7 then 20 - (avg - 4) * 3
    else max 0 (15 - (avg - 7))
  let c := if 10 < variance then base - min 10 (variance / 2) else base
  max 0 (pyRoundQ c)

/-- Progress sub-score.  A NaN first-half mean fails the positivity test
and keeps the neutral 12.5; a NaN second-half mean propagates through
12.5 + NaN, for which Python's min(25, max(0, NaN)) returns 0. -/
def progressSubscore (ones : List (Option ℚ)) : ℤ :=
  if ones.all (· = none) then pyRoundQ 12.5
  else
    let n := ones.length
    match qMeanO (ones.take (n/2)) with
    | none => pyRoundQ 12.5
    | some fh =>
      if 0 < fh then
        match qMeanO (ones.drop (n - n/2)) with
        | none => 0
        | some sh => pyRoundQ (min 25 (max 0 (12.5 + (sh - fh) / fh * 100 * 2)))
      else pyRoundQ 12.5

/-- Volume sub-score, for the nonnegative volume columns the data model
admits.  All volumes zero: the trend is NaN and min(25, max(0, NaN)) is 0.
A zero volume followed by a nonzero one: that pct_change is +inf, the
skipna mean is +inf and the clamp returns 25.  Otherwise every pct_change
with a zero previous value is NaN (0/0) and is skipped by the mean, the
volume mean is positive, and the formula applies directly. -/
noncomputable def volumeSubscore (vols : List ℚ) : ℤ :=
  if vols.all (· = 0) then 0
  else if (vols.zip vols.tail).any (fun p => decide (p.1 = 0) && decide (p.2 ≠ 0)) then 25
  else
    let pcts := (vols.zip vols.tail).filterMap
      (fun p => if p.1 = 0 then none else some ((p.2 - p.1) / p.1))
    let trend : ℝ := (qMean pcts : ℝ)
    let vc : ℝ := 1 - min 1 (Real.sqrt (((qVarO vols).getD 0 : ℚ)) / (qMean vols : ℝ))
    pyRoundR (min 25 (max 0 (12.5 + trend * 50 + vc * 10)))

/-- Recovery sub-score: 25 minus 3 per step of the longest streak of
consecutive sessions with perceived_exertion ≥ 8 (a NaN compares false and
resets the streak), floored at 0. -/
def recoverySubscore (pes : List (Option ℚ)) : ℤ :=
  let ms := (pes.foldl (fun (acc : ℕ × ℕ) pe =>
    match pe with
    | some q => if 8 ≤ q then (acc.1 + 1, max acc.2 (acc.1 + 1)) else (0, acc.2)
    | none => (0, acc.2)) (0, 0)).2
  max 0 (25 - 3 * (ms : ℤ))

structure HealthBreakdown where
  consistency : ℤ
  progress : ℤ
  volume : ℤ
  recovery : ℤ
deriving DecidableEq, Repr

inductive HealthResult
  | insufficient (message : String)
  | ok (score : ℤ) (rating : String) (breakdown : HealthBreakdown)
      (recommendations : List String)
deriving DecidableEq, Repr

def healthRating (total : ℤ) : String :=
  if 80 ≤ total then "Excellent"
  else if 60 ≤ total then "Good"
  else if 40 ≤ total then "Fair"
  else "Needs Attention"

def healthRecommendations (b : HealthBreakdown) : List String :=
  let l :=
    (if b.consistency < 15 then ["Try to maintain more consistent training frequency"] else []) ++
    (if b.progress < 10 then ["Consider progressive overload - gradually increase weight or volume"] else []) ++
    (if b.recovery < 15 then ["Consider adding deload weeks or reducing intensity periodically"] else []) ++
    (if b.volume < 10 then ["Training volume may be inconsistent - try to standardize your workouts"] else [])
  if l.isEmpty then ["Keep up the great work! Your training looks well-balanced."] else l

noncomputable def getHealthScore (df : List SessionRow) : HealthResult :=
  if df.length < 5 then .insufficient "Need at least 5 workouts for health score"
  else
    let d := sortValuesByDate df
    let b : HealthBreakdown :=
      { consistency := consistencySubscore (dayGaps d)
        progress := progressSubscore (d.map (·.estimated_1rm))
        volume := volumeSubscore (d.map (·.total_volume))
        recovery := recoverySubscore (d.map (·.perceived_exertion)) }
    let total := b.consistency + b.progress + b.volume + b.recovery
    .ok total (healthRating total) b (healthRecommendations b)

/-! ## StrengthPredictor (strength_predictor.py)

prepare_data and the per-fit statistics stored on self are exact rational
computations and are modelled directly.  The regression step itself is
performed by scikit-learn, an external dependency: a fitted model enters
the embedding as a prediction function parameter, characterized for claim
C8 by the least-squares specifications further below. -/

def cumSumsAux (acc : ℚ) : List ℚ → List ℚ
  | [] => []
  | x :: xs => (acc + x) :: cumSumsAux (acc + x) xs

/-- Running cumulative sums (pandas cumsum). -/
def cumSums (l : List ℚ) : List ℚ := cumSumsAux 0 l

/-- Feature matrix of prepare_data on the sorted table: days_since_start,
session_number, cumulative_volume, rolling_avg_1rm (3-row window,
min_periods 1), days_since_last (first row fillna(7)). -/
def featureRows (dates : List ℤ) (vols : List ℚ) (ones : List ℚ) : List (Fin 5 → ℚ) :=
  let d0 := dates.headD 0
  let dss : List ℚ := dates.map (fun d => ((d - d0 : ℤ) : ℚ))
  let cums := cumSums vols
  (List.range dates.length).map (fun i =>
    ![dss.getD i 0,
      ((i + 1 : ℕ) : ℚ),
      cums.getD i 0,
      qMean ((ones.take (i+1)).drop (i+1-3)),
      if i = 0 then 7 else dss.getD i 0 - dss.getD (i-1) 0])

/-- The state train stores on self for later predictions. -/
structure TrainState where
  X : List (Fin 5 → ℚ)
  y : List ℚ
  last_date : ℤ
  last_days : ℚ
  last_session : ℕ
  last_cumulative_volume : ℚ
  last_1rm : ℚ
  avg_days_between : ℚ
deriving DecidableEq

/-- train up to the regression step: fewer than 2 rows raises ValueError
in prepare_data (modelled as Except.error); a NaN estimated_1rm would make
scikit-learn's fit raise, also an error.  On success the stored per-fit
statistics are returned. -/
def train (df : List SessionRow) : Except String TrainState :=
  if df.length < 2 then .error "Need at least 2 data points for prediction"
  else
    let d := sortValuesByDate df
    if (d.map (·.estimated_1rm)).any (· = none) then .error "Input contains NaN"
    else
      let dates := d.map (·.workout_date.day)
      let vols := d.map (·.total_volume)
      let ones := (d.map (·.estimated_1rm)).filterMap id
      let X := featureRows dates vols ones
      .ok
        { X := X
          y := ones
          last_date := dates.getLastD 0
          last_days := ((dates.getLastD 0 - dates.headD 0 : ℤ) : ℚ)
          last_session := d.length
          last_cumulative_volume := (cumSums vols).getLastD 0
          last_1rm := ones.getLastD 0
          avg_days_between := qMean (X.map (fun r => r 4)) }

structure PredictionRow where
  date : ℤ
  session_number : ℕ
  predicted_1rm : ℝ
  days_from_now : ℤ

/-- Python round(x, 1), on the real value. -/
noncomputable def round1R (x : ℝ) : ℝ := (pyRoundR (10 * x) : ℝ) / 10

/-- The feature vector predict_future builds for future session index i.
future_rolling_avg is assigned self.last_1rm at the top of every loop
iteration (line 202), so the fourth feature is this constant; the
assignment of the predicted value at the end of the body (line 225) is
overwritten before any use. -/
def predictStepVec (st : TrainState) (i : ℕ) : Fin 5 → ℚ :=
  ![st.last_days + i * st.avg_days_between,
    ((st.last_session + i : ℕ) : ℚ),
    st.last_cumulative_volume + i * (st.last_cumulative_volume / (st.last_session : ℚ)),
    st.last_1rm,
    st.avg_days_between]

/-- The predict_future loop, keeping the feature vector handed to the
model next to each output row.  fra is the carried future_rolling_avg
variable: dead, but carried to mirror the source. -/
noncomputable def predictRowsAux (p : (Fin 5 → ℚ) → ℝ) (st : TrainState) :
    ℕ → ℝ → ℕ → List ((Fin 5 → ℚ) × PredictionRow)
  | _, _, 0 => []
  | i, _, c + 1 =>
    let x := predictStepVec st i
    let pred := p x
    (x,
      { date := st.last_date + pyIntQ ((i : ℚ) * st.avg_days_between)
        session_number := st.last_session + i
        predicted_1rm := round1R pred
        days_from_now := pyIntQ (st.last_days + i * st.avg_days_between - st.last_days) }) ::
      predictRowsAux p st (i + 1) pred c

/-- predict_future with an explicit sessions_ahead count, feature vectors
logged.  The carried variable starts unassigned in the source; 0 stands in
for it, it is overwritten before every use. -/
noncomputable def predictFutureLog (p : (Fin 5 → ℚ) → ℝ) (st : TrainState)
    (sessions_ahead : ℕ) : List ((Fin 5 → ℚ) × PredictionRow) :=
  predictRowsAux p st 1 0 sessions_ahead

/-- sessions_ahead derived from days_ahead: max(1, int(days_ahead / avg)). -/
def sessionsAheadFor (st : TrainState) (days_ahead : ℤ) : ℕ :=
  (max 1 (pyIntQ ((days_ahead : ℚ) / st.avg_days_between))).toNat

noncomputable def predictFuture (p : (Fin 5 → ℚ) → ℝ) (st : TrainState)
    (days_ahead : ℤ) : List PredictionRow :=
  (predictFutureLog p st (sessionsAheadFor st days_ahead)).map (·.2)

/-! ## The regression step of train (scikit-learn collaborators)

StandardScaler, LinearRegression and Ridge are external dependencies, not
repository code.  The scaler is modelled directly (per-column zero mean,
unit population variance, zero-variance columns scaled by 1).  A fitted
LinearRegression is characterized by its documented behaviour: coefficient
vector of minimal Euclidean norm among the least-squares minimizers of the
column-centered system, intercept mean y minus the column means dotted
with the coefficients; Ridge(alpha=1.0) as the unique minimizer of the
residual sum of squares plus the squared norm penalty.  model.score is the
R-squared of the fitted predictions. -/

noncomputable def rMean (l : List ℝ) : ℝ := l.sum / l.length

noncomputable def dot5 (a b : Fin 5 → ℝ) : ℝ :=
  a 0 * b 0 + a 1 * b 1 + a 2 * b 2 + a 3 * b 3 + a 4 * b 4

noncomputable def normSq5 (w : Fin 5 → ℝ) : ℝ := dot5 w w

/-- Residual sum of squares of the linear form x ↦ dot5 x w. -/
noncomputable def ssRes (X : List (Fin 5 → ℝ)) (y : List ℝ) (w : Fin 5 → ℝ) : ℝ :=
  ((X.zip y).map (fun p => (p.2 - dot5 p.1 w)^2)).sum

noncomputable def colMean5 (X : List (Fin 5 → ℝ)) : Fin 5 → ℝ :=
  fun j => rMean (X.map (fun r => r j))

noncomputable def centerX (X : List (Fin 5 → ℝ)) : List (Fin 5 → ℝ) :=
  X.map (fun r => fun j => r j - colMean5 X j)

noncomputable def centerY (y : List ℝ) : List ℝ := y.map (fun v => v - rMean y)

/-- sklearn LinearRegression(fit_intercept=True).fit(X, y): the coefficient
vector is the minimum-norm least-squares solution of the centered system
(scipy lstsq), the intercept recenters. -/
def IsLinReg (X : List (Fin 5 → ℝ)) (y : List ℝ) (w : Fin 5 → ℝ) (b : ℝ) : Prop :=
  (∀ w', ssRes (centerX X) (centerY y) w ≤ ssRes (centerX X) (centerY y) w') ∧
  (∀ w', (∀ w'', ssRes (centerX X) (centerY y) w' ≤ ssRes (centerX X) (centerY y) w'') →
    normSq5 w ≤ normSq5 w') ∧
  b = rMean y - dot5 (colMean5 X) w

/-- sklearn Ridge(alpha=1.0, fit_intercept=True).fit(X, y). -/
def IsRidge (X : List (Fin 5 → ℝ)) (y : List ℝ) (w : Fin 5 → ℝ) (b : ℝ) : Prop :=
  (∀ w', ssRes (centerX X) (centerY y) w + normSq5 w ≤
    ssRes (centerX X) (centerY y) w' + normSq5 w') ∧
  b = rMean y - dot5 (colMean5 X) w

/-- model.score(X, y): R-squared of the fitted predictions b + x.w. -/
noncomputable def r2Score (X : List (Fin 5 → ℝ)) (y : List ℝ) (w : Fin 5 → ℝ) (b : ℝ) : ℝ :=
  1 - ((X.zip y).map (fun p => (p.2 - (b + dot5 p.1 w))^2)).sum /
    ((y.map (fun v => (v - rMean y)^2)).sum)

/-- StandardScaler per-column scale: sqrt of the population variance, 1 for
a zero-variance column. -/
noncomputable def scaleOf (l : List ℚ) : ℝ :=
  if qPopVar l = 0 then 1 else Real.sqrt ((qPopVar l : ℚ) : ℝ)

/-- scaler.fit_transform on the training feature matrix. -/
noncomputable def scaledX (X : List (Fin 5 → ℚ)) : List (Fin 5 → ℝ) :=
  X.map (fun r => fun j =>
    (((r j : ℚ) : ℝ) - ((qMean (X.map (fun t => t j)) : ℚ) : ℝ)) / scaleOf (X.map (fun t => t j)))

/-- scaler.transform applied to one future feature vector. -/
noncomputable def scaledVec (X : List (Fin 5 → ℚ)) (v : Fin 5 → ℚ) : Fin 5 → ℝ :=
  fun j =>
    (((v j : ℚ) : ℝ) - ((qMean (X.map (fun t => t j)) : ℚ) : ℝ)) / scaleOf (X.map (fun t => t j))

/-- The composite handed to predict_future: scale the feature vector with
the training scaler, then apply the fitted linear model. -/
noncomputable def fittedPredictor (X : List (Fin 5 → ℚ)) (w : Fin 5 → ℝ) (b : ℝ) :
    (Fin 5 → ℚ) → ℝ :=
  fun v => b + dot5 (scaledVec X v) w

/-! ### The concrete three-session input of claim C8
Dates 2024-01-01, 2024-01-08, 2024-01-15 (day numbers 0, 7, 14), estimated
1RMs 100, 105, 110; no working-set volume is given in the scenario, so
total_volume is 0 throughout. -/

def c8Rows : List SessionRow :=
  [{ id := 1, workout_date := .raw 0, estimated_1rm := some 100 },
    { id := 2, workout_date := .raw 7, estimated_1rm := some 105 },
    { id := 3, workout_date := .raw 14, estimated_1rm := some 110 }]

def c8X : List (Fin 5 → ℚ) :=
  [![0, 1, 0, 100, 7], ![7, 2, 0, 205/2, 7], ![14, 3, 0, 105, 7]]

/-- The state train stores for c8Rows. -/
def c8State : TrainState :=
  { X := c8X
    y := [100, 105, 110]
    last_date := 14
    last_days := 14
    last_session := 3
    last_cumulative_volume := 0
    last_1rm := 110
    avg_days_between := 7 }

/-- The minimum-norm least-squares coefficients for the c8 scenario. -/
noncomputable def c8LinCoef : Fin 5 → ℝ :=
  ![5 * Real.sqrt 6 / 9, 5 * Real.sqrt 6 / 9, 0, 5 * Real.sqrt 6 / 9, 0]

/-- The Ridge(alpha=1) coefficients for the c8 scenario. -/
noncomputable def c8RidgeCoef : Fin 5 → ℝ :=
  ![Real.sqrt 6 / 2, Real.sqrt 6 / 2, 0, Real.sqrt 6 / 2, 0]

/-! ## TrainingRecommender (recommender.py)

analyze_training_balance and get_next_workout_recommendation assign the
pd.to_datetime of the workout_date column back into the caller's workouts
DataFrame without copying first, so each entry point is modelled in state
passing style, returning the post-call value of every table it was given.
The other entry points rebind their local name to a sorted copy before
touching any column. -/

structure SetRow where
  id : ℕ
  workout_id : ℕ
  exercise_id : ℕ
  set_number : ℕ := 1
  weight : Option ℚ := none
  reps : ℚ := 0
  set_type : String := "working"
  rpe : Option ℚ := none
deriving DecidableEq, Repr

structure ExerciseRow where
  id : ℕ
  name : String := ""
  muscle_group : String := ""
  movement_type : String := ""
  equipment : String := ""
  is_compound : Bool := false
deriving DecidableEq, Repr

/-- VOLUME_TARGETS in dict order; the keys of the per-muscle loops. -/
def muscleList : List String := ["chest", "back", "shoulders", "legs", "arms", "core"]

/-- VOLUME_TARGETS lookup as (min, max, optimal); the else case is the
.get default used in _calculate_balance_score. -/
def volumeTargets (m : String) : ℤ × ℤ × ℤ :=
  if m = "chest" then (10, 20, 14)
  else if m = "back" then (10, 20, 16)
  else if m = "shoulders" then (8, 16, 12)
  else if m = "legs" then (12, 22, 16)
  else if m = "arms" then (6, 14, 10)
  else if m = "core" then (4, 12, 8)
  else (8, 16, 12)

/-- RECOVERY_DAYS lookup; the else case is the .get default 2. -/
def recoveryDays (m : String) : ℤ :=
  if m = "chest" then 2
  else if m = "back" then 2
  else if m = "shoulders" then 2
  else if m = "legs" then 2
  else if m = "arms" then 1
  else if m = "core" then 1
  else 2

/-- The inner join of the recent working sets with the exercise catalog,
restricted to one muscle group. -/
def workingSetsFor (recentIds : List ℕ) (sets : List SetRow)
    (exercises : List ExerciseRow) (m : String) : List (SetRow × ExerciseRow) :=
  ((sets.filter (fun s => recentIds.contains s.workout_id)).flatMap
      (fun s => (exercises.filter (fun e => e.id = s.exercise_id)).map (fun e => (s, e)))).filter
    (fun p => p.1.set_type = "working" && p.2.muscle_group = m)

structure MuscleAnalysis where
  muscle : String
  sets : ℕ
  volume : ℚ
  target_range : String
  status : String
  recommendation : String
deriving DecidableEq, Repr

def muscleAnalysisFor (recentIds : List ℕ) (sets : List SetRow)
    (exercises : List ExerciseRow) (m : String) : MuscleAnalysis :=
  let ws := workingSetsFor recentIds sets exercises m
  let cnt := ws.length
  let vol := (ws.map (fun p => p.1.weight.getD 0 * p.1.reps)).sum
  let t := volumeTargets m
  let sc : String × String :=
    if (cnt : ℤ) < t.1 then
      ("undertrained", "Add " ++ toString (t.1 - cnt) ++ " more sets")
    else if t.2.1 < (cnt : ℤ) then
      ("overtrained", "Consider reducing by " ++ toString ((cnt : ℤ) - t.2.1) ++ " sets")
    else ("optimal", "Volume is good")
  { muscle := m
    sets := cnt
    volume := ((pyRoundQ vol : ℤ) : ℚ)
    target_range := toString t.1 ++ "-" ++ toString t.2.1
    status := sc.1
    recommendation := sc.2 }

/-- _calculate_balance_score over the per-muscle analysis. -/
def balanceScore (analysis : List MuscleAnalysis) : ℤ × String :=
  let per : List ℚ := analysis.map (fun a =>
    let t := volumeTargets a.muscle
    let s : ℤ := a.sets
    if t.1 ≤ s ∧ s ≤ t.2.1 then
      let maxDist : ℤ := max (t.2.2 - t.1) (t.2.1 - t.2.2)
      if 0 < maxDist then (100 : ℚ) - ((|s - t.2.2| : ℤ) : ℚ) / (maxDist : ℚ) * 30 else 100
    else if s < t.1 then max 0 (50 * ((s : ℚ) / (t.1 : ℚ)))
    else max 0 ((70 : ℚ) - ((s - t.2.1 : ℤ) : ℚ) * 5))
  let total := per.sum
  let maxScore : ℚ := (analysis.length : ℚ) * 100
  let final : ℤ := if 0 < maxScore then pyRoundQ (total / maxScore * 100) else 0
  (final,
    if 80 ≤ final then "Excellent"
    else if 60 ≤ final then "Good"
    else if 40 ≤ final then "Fair"
    else "Needs Work")

inductive BalanceResult
  | noData (message : String)
  | ok (period_days : ℤ) (total_workouts : ℕ) (muscle_groups : List MuscleAnalysis)
      (most_trained least_trained : String) (balance_score : ℤ) (balance_rating : String)
deriving DecidableEq, Repr

def setsBefore (a b : MuscleAnalysis) : Bool := decide (b.sets < a.sets)

/-- analyze_training_balance.  The first statement writes the parsed date
column into the caller's workouts table (line 71, no copy), so the
post-call tables are returned next to the result; now is the
datetime.now() the source reads, at day granularity. -/
def analyzeTrainingBalance (now : ℤ) (workouts : List SessionRow) (sets : List SetRow)
    (exercises : List ExerciseRow) (days : ℤ) :
    BalanceResult × List SessionRow × List SetRow × List ExerciseRow :=
  let w := workouts.map (fun r => { r with workout_date := r.workout_date.toDatetime })
  let cutoff := now - days
  let recent := w.filter (fun r => decide (cutoff ≤ r.workout_date.day))
  if recent.length = 0 then
    (.noData ("No workouts in the last " ++ toString days ++ " days"), w, sets, exercises)
  else
    let recentIds := recent.map (·.id)
    let analysis := muscleList.map (muscleAnalysisFor recentIds sets exercises)
    let sortedA := sSort setsBefore analysis
    let bs := balanceScore analysis
    (.ok days recent.length analysis
      ((sortedA.headD (muscleAnalysisFor recentIds sets exercises "chest")).muscle)
      ((sortedA.getLastD (muscleAnalysisFor recentIds sets exercises "chest")).muscle)
      bs.1 bs.2, w, sets, exercises)

/-- Days since a muscle group was last trained (999 when never trained). -/
def daysSinceTrained (now : ℤ) (workouts : List SessionRow) (sets : List SetRow)
    (exercises : List ExerciseRow) (m : String) : ℤ :=
  let merged := sets.flatMap (fun s =>
    (workouts.filter (fun w => w.id = s.workout_id)).flatMap (fun w =>
      (exercises.filter (fun e => e.id = s.exercise_id)).map (fun e => (s, w, e))))
  let md := (merged.filter (fun x => x.2.2.muscle_group = m)).map (fun x => x.2.1.workout_date.day)
  match md.max? with
  | some d => now - d
  | none => 999

def dedupFirstAux (seen : List String) : List String → List String
  | [] => []
  | x :: xs => if seen.contains x then dedupFirstAux seen xs else x :: dedupFirstAux (x :: seen) xs

/-- pandas Series.unique: first-occurrence order. -/
def dedupFirst (l : List String) : List String := dedupFirstAux [] l

/-- _get_exercise_suggestions, with the two .sample calls supplied as
choice-function parameters (the source samples randomly): pick1 stands for
df.sample(1) on a nonempty frame, pickK k for df.sample(k). -/
def exerciseSuggestions (pick1 : List ExerciseRow → Option ExerciseRow)
    (pickK : ℕ → List ExerciseRow → List ExerciseRow)
    (exercises : List ExerciseRow) (muscles : List String) : List (ℕ × String × String) :=
  muscles.flatMap (fun m =>
    let mex := exercises.filter (fun e => e.muscle_group = m)
    let compounds := mex.filter (·.is_compound)
    let isolations := mex.filter (fun e => !e.is_compound)
    let sel1 : List ExerciseRow :=
      if 0 < compounds.length then
        match pick1 compounds with
        | some e => [e]
        | none => []
      else []
    let sel2 : List ExerciseRow :=
      if 0 < isolations.length ∧ sel1.length < 2 then
        match pick1 isolations with
        | some e => sel1 ++ [e]
        | none => sel1
      else sel1
    let remaining := 2 - sel2.length
    let available := mex.filter (fun e => !(sel2.map (·.id)).contains e.id)
    let sel3 :=
      if 0 < remaining ∧ 0 < available.length then
        sel2 ++ pickK (min remaining available.length) available
      else sel2
    sel3.map (fun e => (e.id, e.name, m)))

inductive NextRec
  | fullBody (suggested : List String) (exercises : List (ℕ × String × String))
  | targeted (suggested : List String) (avoid : Option (List String))
      (exercises : List (ℕ × String × String))
  | restOrLight
deriving DecidableEq, Repr

/-- get_next_workout_recommendation: calls analyze_training_balance (which
already rewrites the caller's date column) and then performs the same
in-place to_datetime assignment again on line 213 before reading the last
workout. -/
def getNextWorkout (pick1 : List ExerciseRow → Option ExerciseRow)
    (pickK : ℕ → List ExerciseRow → List ExerciseRow) (now : ℤ)
    (workouts : List SessionRow) (sets : List SetRow) (exercises : List ExerciseRow) :
    NextRec × List SessionRow × List SetRow × List ExerciseRow :=
  let r1 := analyzeTrainingBalance now workouts sets exercises 7
  match r1.1 with
  | .noData _ =>
    (.fullBody ["chest", "back", "legs", "shoulders"]
      (exerciseSuggestions pick1 pickK exercises ["chest", "back", "legs", "shoulders"]),
      r1.2)
  | .ok _ _ mgs _ _ _ _ =>
    let w2 := r1.2.1.map (fun r => { r with workout_date := r.workout_date.toDatetime })
    let undertrained := (mgs.filter (fun a => a.status = "undertrained")).map (·.muscle)
    let sortedW := sSort dateBefore w2
    match sortedW.getLast? with
    | none => (.restOrLight, w2, r1.2.2)
    | some lastW =>
      let lastSets := sets.filter (fun s => s.workout_id = lastW.id)
      let lastMuscles := dedupFirst (lastSets.flatMap (fun s =>
        (exercises.filter (fun e => e.id = s.exercise_id)).map (·.muscle_group)))
      let priority1 := undertrained.filter
        (fun m => decide (recoveryDays m ≤ daysSinceTrained now w2 sets exercises m))
      let priority :=
        if priority1.isEmpty then
          muscleList.filter (fun m =>
            decide (recoveryDays m ≤ daysSinceTrained now w2 sets exercises m) &&
              !(lastMuscles.contains m))
        else priority1
      if priority.isEmpty then (.restOrLight, w2, r1.2.2)
      else
        (.targeted (priority.take 3)
          (if 0 < lastMuscles.length then some lastMuscles else none)
          (exerciseSuggestions pick1 pickK exercises (priority.take 3)),
          w2, r1.2.2)

structure DeloadResult where
  needs_deload : Bool
  reason : Option String := none
  suggestion : Option String := none
  workouts_until_deload : Option ℤ := none
deriving DecidableEq, Repr

def labeledDateBefore (a b : ℕ × SessionRow) : Bool :=
  decide (a.2.workout_date.day < b.2.workout_date.day)

/-- Workouts since the last inter-session gap of at least 7 days.  pandas
keeps the original integer index labels through sort_values, so the count
is the table length minus the label of the row that follows the gap. -/
def workoutsSinceBreak (workouts : List SessionRow) : ℤ :=
  let sorted := sSort labeledDateBefore workouts.enum
  let gapsWithLabel : List (ℕ × ℤ) := (sorted.zip sorted.tail).map
    (fun p => (p.2.1, p.2.2.workout_date.day - p.1.2.workout_date.day))
  match (gapsWithLabel.filter (fun g => decide (7 ≤ g.2))).getLast? with
  | some b => (workouts.length : ℤ) - b.1
  | none => workouts.length

/-- The number of sessions from the last inter-session gap of at least 7
days (inclusive) to the end of a chronologically ordered history; the
whole history when no such gap exists.  This is the claim-side reading of
"sessions elapsed since the last break"; for sorted input it coincides
with the label arithmetic of workoutsSinceBreak. -/
def sessionsSinceLastGap (w : List SessionRow) : ℤ :=
  let gaps : List ℤ := (w.zip w.tail).map
    (fun p => p.2.workout_date.day - p.1.workout_date.day)
  match (gaps.enum.filter (fun q => decide (7 ≤ q.2))).getLast? with
  | some q => (w.length : ℤ) - (q.1 + 1)
  | none => w.length

/-- The day span covered by the trailing 12 sessions, as suggest_deload
computes it on the sorted table. -/
def trailing12Range (workouts : List SessionRow) : ℤ :=
  let sorted := sSort labeledDateBefore workouts.enum
  let recent := sorted.drop (sorted.length - 12)
  let recentDays := recent.map (·.2.workout_date.day)
  recentDays.max?.getD 0 - recentDays.min?.getD 0

/-- suggest_deload.  The sets argument is accepted and never read, as in
the source; the workouts table is rebound to a sorted copy (line 370), so
both tables come back unchanged. -/
def suggestDeload (workouts : List SessionRow) (sets : List SetRow) :
    DeloadResult × List SessionRow × List SetRow :=
  if workouts.length < 8 then
    ({ needs_deload := false, reason := some "Not enough training history" }, workouts, sets)
  else
    let sorted := sSort labeledDateBefore workouts.enum
    let recent := sorted.drop (sorted.length - 12)
    let recentDays := recent.map (·.2.workout_date.day)
    let dateRange := recentDays.max?.getD 0 - recentDays.min?.getD 0
    if dateRange < 21 then
      ({ needs_deload := false, reason := some "Training period too short for deload" },
        workouts, sets)
    else
      let ex := (recent.map (·.2.perceived_exertion)).filterMap id
      let exertionFires : Bool :=
        if 4 ≤ ex.length then
          decide (qMean (ex.take (ex.length / 2)) + 1 < qMean (ex.drop (ex.length - ex.length / 2)))
        else false
      if exertionFires then
        ({ needs_deload := true
           reason := some "Perceived exertion increasing - signs of accumulated fatigue"
           suggestion := some "Reduce weights by 40-50% and volume by 50% for 1 week" },
          workouts, sets)
      else
        let wsb := workoutsSinceBreak workouts
        if 16 ≤ wsb then
          ({ needs_deload := true
             reason := some (toString wsb ++ " workouts since last break")
             suggestion := some "Schedule a deload week: reduce intensity by 40%, volume by 50%" },
            workouts, sets)
        else
          ({ needs_deload := false
             workouts_until_deload := some (16 - wsb)
             suggestion := some "Continue training as normal" }, workouts, sets)

/-! ## Entry points in state-passing form (for the frame claim C7)

Each wrapper returns the post-call value of every caller-supplied table.
detect_anomalies (line 72), get_health_score (line 280), prepare_data
(line 61, reached from train) and suggest_deload (line 370) all rebind
their parameter to a sorted copy before assigning any column, so their
post state is the input itself. -/

def detectAnomaliesOp (t : ℚ) (df : List SessionRow) : List Anomaly × List SessionRow :=
  (detectAnomalies t df, df)

noncomputable def getHealthScoreOp (df : List SessionRow) : HealthResult × List SessionRow :=
  (getHealthScore df, df)

def trainOp (df : List SessionRow) : Except String TrainState × List SessionRow :=
  (train df, df)

/-- The in-place pd.to_datetime column assignment on the workouts table. -/
def parseWorkouts (w : List SessionRow) : List SessionRow :=
  w.map (fun r => { r with workout_date := r.workout_date.toDatetime })

/-- A 17-session history: one 10-day break after the first session, then
16 sessions every 2 days. -/
def deloadHistory : List SessionRow :=
  [{ id := 0, workout_date := .raw 0 },
    { id := 1, workout_date := .raw 10 },
    { id := 2, workout_date := .raw 12 },
    { id := 3, workout_date := .raw 14 },
    { id := 4, workout_date := .raw 16 },
    { id := 5, workout_date := .raw 18 },
    { id := 6, workout_date := .raw 20 },
    { id := 7, workout_date := .raw 22 },
    { id := 8, workout_date := .raw 24 },
    { id := 9, workout_date := .raw 26 },
    { id := 10, workout_date := .raw 28 },
    { id := 11, workout_date := .raw 30 },
    { id := 12, workout_date := .raw 32 },
    { id := 13, workout_date := .raw 34 },
    { id := 14, workout_date := .raw 36 },
    { id := 15, workout_date := .raw 38 },
    { id := 16, workout_date := .raw 40 }]

/-! ## Theorems for the formula layer (claims C2, C3, C4) -/

theorem calculate_1rm_average_branch (w : ℚ) (r : ℤ) (hw : 0 < w) (hr : 1 < r) :
    calculate_1rm w r "average" =
      (epley w r + brzycki w r + lombardi w r + oconner w r + mayhew w r) / 5 := by
  have h1 : ¬ (r = 1) := by omega
  have h2 : ¬ (r < 1 ∨ w ≤ 0) := by
    push_neg
    exact ⟨by omega, by linarith⟩
  simp [calculate_1rm, h1, h2]

theorem lombardi_100_2_lt : lombardi 100 2 < 108 := by
  have hpow : ((2:ℝ) ^ (0.10:ℝ)) ^ (10:ℕ) = 2 := by
    rw [← Real.rpow_natCast ((2:ℝ) ^ (0.10:ℝ)) 10, ← Real.rpow_mul (by norm_num : (0:ℝ) ≤ 2)]
    norm_num
  have hlt : (2:ℝ) ^ (0.10:ℝ) < 1.08 := by
    by_contra hcon
    push_neg at hcon
    have := pow_le_pow_left₀ (by norm_num : (0:ℝ) ≤ 1.08) hcon 10
    rw [hpow] at this
    norm_num at this
  have : lombardi 100 2 = 100 * (2:ℝ) ^ (0.10:ℝ) := by
    unfold lombardi
    norm_num
  rw [this]
  nlinarith

theorem mayhew_100_2_gt : 110 < mayhew 100 2 := by
  have hexp : Real.exp (-0.055 * ((2:ℤ):ℝ)) ≤ 1 / 1.11 := by
    have h1 : (1.11 : ℝ) ≤ Real.exp 0.11 := by
      have := Real.add_one_le_exp (0.11 : ℝ)
      linarith
    have h2 : Real.exp (-0.055 * ((2:ℤ):ℝ)) = (Real.exp 0.11)⁻¹ := by
      rw [show (-0.055 * ((2:ℤ):ℝ)) = -(0.11:ℝ) by norm_num, Real.exp_neg]
    rw [h2, inv_eq_one_div]
    apply div_le_div_of_nonneg_left (by norm_num) (by norm_num) h1
  have hpos : 0 < Real.exp (-0.055 * ((2:ℤ):ℝ)) := Real.exp_pos _
  have hden : (0:ℝ) < 52.2 + 41.9 * Real.exp (-0.055 * ((2:ℤ):ℝ)) := by nlinarith
  have hden_lt : 52.2 + 41.9 * Real.exp (-0.055 * ((2:ℤ):ℝ)) < 90 := by nlinarith
  have : mayhew 100 2 = 100 * (100 / (52.2 + 41.9 * Real.exp (-0.055 * ((2:ℤ):ℝ)))) := by
    unfold mayhew
    norm_num
  rw [this]
  have hrw : (100:ℝ) * (100 / (52.2 + 41.9 * Real.exp (-0.055 * ((2:ℤ):ℝ)))) =
      10000 / (52.2 + 41.9 * Real.exp (-0.055 * ((2:ℤ):ℝ))) := by ring
  rw [hrw, lt_div_iff hden]
  nlinarith

/-- C2 counterexample: at weight 100 and 2 reps, calculate_1rm with the
"average" formula does not equal the mean of the four mayhew-free formulas:
the source averages all five dict values, mayhew included. -/
theorem c2_average_includes_mayhew_counterexample :
    calculate_1rm 100 2 "average" ≠ specAverageOfFour 100 2 := by
  have hbranch : calculate_1rm 100 2 "average" =
      (epley 100 2 + brzycki 100 2 + lombardi 100 2 + oconner 100 2 + mayhew 100 2) / 5 := by
    simp [calculate_1rm]
  have he : epley 100 2 = 320/3 := by
    unfold epley
    norm_num
  have hb : brzycki 100 2 = 720/7 := by
    unfold brzycki
    norm_num
  have ho : oconner 100 2 = 105 := by
    unfold oconner
    norm_num
  have hl : lombardi 100 2 < 108 := lombardi_100_2_lt
  have hlpos : 0 < lombardi 100 2 := by
    unfold lombardi
    positivity
  have hm : 110 < mayhew 100 2 := mayhew_100_2_gt
  rw [hbranch]
  unfold specAverageOfFour
  rw [he, hb, ho]
  intro heq
  linarith [heq, hl, hlpos, hm]

/-- C2 (amended): for weight > 0 and reps > 1, calculate_1rm with the
"average" formula equals the arithmetic mean of all five formula values,
epley, brzycki, lombardi, oconner and mayhew (mayhew is included). -/
theorem c2_average_is_mean_of_five (w : ℚ) (r : ℤ) (hw : 0 < w) (hr : 1 < r) :
    calculate_1rm w r "average" =
      (epley w r + brzycki w r + lombardi w r + oconner w r + mayhew w r) / 5 :=
  calculate_1rm_average_branch w r hw hr

theorem c2_average_is_mean_of_five_witness :
    0 < (100:ℚ) ∧ 1 < (2:ℤ) ∧ calculate_1rm 100 2 "average" =
      (epley 100 2 + brzycki 100 2 + lombardi 100 2 + oconner 100 2 + mayhew 100 2) / 5 :=
  ⟨by norm_num, by norm_num, c2_average_is_mean_of_five 100 2 (by norm_num) (by norm_num)⟩

/-- C3: for every positive weight and every formula string, calculate_1rm at
one rep returns exactly the weight (the reps == 1 branch precedes every
formula computation and the degenerate guard). -/
theorem c3_one_rep_returns_weight (w : ℚ) (formula : String) (_hw : 0 < w) :
    calculate_1rm w 1 formula = (w : ℝ) := by
  simp [calculate_1rm]

theorem c3_one_rep_returns_weight_witness :
    0 < (225:ℚ) ∧ calculate_1rm 225 1 "lombardi" = ((225:ℚ) : ℝ) :=
  ⟨by norm_num, c3_one_rep_returns_weight 225 "lombardi" (by norm_num)⟩

/-- C4 counterexample: at weight -5 and reps 1 the guard weight ≤ 0 does not
yield 0: the reps == 1 branch fires first and returns the weight itself. -/
theorem c4_negative_weight_one_rep_counterexample :
    calculate_1rm (-5) 1 "epley" ≠ 0 := by
  simp [calculate_1rm]

/-- C4 (amended): calculate_1rm returns 0 whenever reps < 1, or weight ≤ 0
with reps ≠ 1; when reps equals 1 the weight is returned unchanged even if
it is nonpositive, because the reps == 1 check precedes the degenerate
guard. -/
theorem c4_degenerate_returns_zero (w : ℚ) (r : ℤ) (formula : String)
    (hr : r ≠ 1) (h : r < 1 ∨ w ≤ 0) :
    calculate_1rm w r formula = 0 := by
  simp [calculate_1rm, hr, h]

theorem c4_degenerate_returns_zero_witness :
    (0:ℤ) ≠ 1 ∧ ((0:ℤ) < 1 ∨ (-5:ℚ) ≤ 0) ∧ calculate_1rm (-5) 0 "average" = 0 :=
  ⟨by norm_num, Or.inl (by norm_num), c4_degenerate_returns_zero (-5) 0 "average"
    (by norm_num) (Or.inl (by norm_num))⟩

/-! ## Insufficient-data behaviour (claim C1) -/

/-- C1 counterexample: train on a single session does not return a
structured result: prepare_data raises ValueError (modelled as
Except.error) before any computation, contradicting the claim that no
operation hard-fails below its minimum sample count. -/
theorem c1_train_raises_counterexample :
    train [{ id := 1, workout_date := .raw 0 }] =
      .error "Need at least 2 data points for prediction" := by
  rfl

/-- C1 (amended): below the per-operation minimum, detect_anomalies
returns the empty list, get_health_score a null score with message, and
suggest_deload needs_deload false, none of them raising; train, however,
signals fewer than 2 sessions by raising ValueError (caught only at the
HTTP boundary), not by returning a structured result. -/
theorem c1_insufficient_data (t : ℚ) (df : List SessionRow)
    (w : List SessionRow) (s : List SetRow) :
    (df.length < 3 → detectAnomalies t df = []) ∧
    (df.length < 5 →
      getHealthScore df = .insufficient "Need at least 5 workouts for health score") ∧
    (w.length < 8 →
      suggestDeload w s =
        ({ needs_deload := false, reason := some "Not enough training history" }, w, s)) ∧
    (df.length < 2 → train df = .error "Need at least 2 data points for prediction") := by
  refine ⟨fun h => ?_, fun h => ?_, fun h => ?_, fun h => ?_⟩
  · simp [detectAnomalies, h]
  · simp [getHealthScore, h]
  · simp [suggestDeload, h]
  · simp [train, h]

theorem c1_insufficient_data_witness :
    detectAnomalies 2 [{ id := 1, workout_date := .raw 0 }] = [] ∧
    getHealthScore [{ id := 1, workout_date := .raw 0 }] =
      .insufficient "Need at least 5 workouts for health score" ∧
    suggestDeload [{ id := 1, workout_date := .raw 0 }] [] =
      ({ needs_deload := false, reason := some "Not enough training history" },
        [{ id := 1, workout_date := .raw 0 }], []) ∧
    train [] = .error "Need at least 2 data points for prediction" :=
  ⟨(c1_insufficient_data 2 [{ id := 1, workout_date := .raw 0 }] [] []).1 (by decide),
    (c1_insufficient_data 2 [{ id := 1, workout_date := .raw 0 }] [] []).2.1 (by decide),
    (c1_insufficient_data 2 [] [{ id := 1, workout_date := .raw 0 }] []).2.2.1 (by decide),
    (c1_insufficient_data 2 [] [] []).2.2.2 (by decide)⟩

/-! ## Zero standard deviation skips (claim C6) -/

/-- C6: a session whose 5-row rolling std of estimated_1rm is exactly zero
is skipped by the performance detector, and a zero global std of
total_volume makes the volume detector return no anomaly at all, so the
z-score division never sees a zero denominator. -/
theorem c6_zero_std_skipped (t : ℚ) (df : List SessionRow) :
    (∀ i, rollingVarO (df.map (·.estimated_1rm)) i = some 0 →
      perfAnomalyAt t df i = none) ∧
    (qVarO (df.map (·.total_volume)) = some 0 → detectVolumeAnomalies t df = []) := by
  constructor
  · intro i h
    unfold perfAnomalyAt
    cases hdf : df[i]? with
    | none => rfl
    | some r => simp [h]
  · intro h
    unfold detectVolumeAnomalies
    simp [h]

theorem c6_zero_std_skipped_witness :
    perfAnomalyAt 2
      [{ id := 1, workout_date := .raw 0, estimated_1rm := some 100 },
        { id := 2, workout_date := .raw 2, estimated_1rm := some 100 },
        { id := 3, workout_date := .raw 4, estimated_1rm := some 100 }] 2 = none ∧
    detectVolumeAnomalies 2
      [{ id := 1, workout_date := .raw 0, total_volume := 50 },
        { id := 2, workout_date := .raw 2, total_volume := 50 },
        { id := 3, workout_date := .raw 4, total_volume := 50 }] = [] :=
  ⟨(c6_zero_std_skipped 2
      [{ id := 1, workout_date := .raw 0, estimated_1rm := some 100 },
        { id := 2, workout_date := .raw 2, estimated_1rm := some 100 },
        { id := 3, workout_date := .raw 4, estimated_1rm := some 100 }]).1 2
      (by norm_num [rollingVarO, rollingVals, qVarO, qMean, List.filterMap_cons]),
    (c6_zero_std_skipped 2
      [{ id := 1, workout_date := .raw 0, total_volume := 50 },
        { id := 2, workout_date := .raw 2, total_volume := 50 },
        { id := 3, workout_date := .raw 4, total_volume := 50 }]).2
      (by norm_num [qVarO, qMean])⟩

/-! ## The rolling-average feature of predict_future (claim C10) -/

lemma predictStepVec_rolling (st : TrainState) (i : ℕ) :
    predictStepVec st i 3 = st.last_1rm := rfl

lemma predictRowsAux_rolling (p : (Fin 5 → ℚ) → ℝ) (st : TrainState) :
    ∀ (c i : ℕ) (fra : ℝ),
      (predictRowsAux p st i fra c).map (fun e => e.1 3) =
        List.replicate c st.last_1rm := by
  intro c
  induction c with
  | zero => intro i fra; rfl
  | succ c ih =>
    intro i fra
    simp only [predictRowsAux, List.map_cons, List.replicate_succ, predictStepVec_rolling]
    exact congrArg _ (ih (i + 1) _)

/-- C10: in predict_future, the rolling_avg_1rm feature handed to the
model is the constant last observed estimated_1rm for every future session
index; predicted values are never fed back into a later feature vector,
because the end-of-loop reassignment is overwritten at the top of each
iteration. -/
theorem c10_rolling_avg_feature_constant (p : (Fin 5 → ℚ) → ℝ) (st : TrainState)
    (sessions_ahead : ℕ) :
    (predictFutureLog p st sessions_ahead).map (fun e => e.1 3) =
      List.replicate sessions_ahead st.last_1rm :=
  predictRowsAux_rolling p st sessions_ahead 1 0

/-! ## Frame behaviour of the entry points (claim C7) -/

lemma parseWorkouts_idem (w : List SessionRow) :
    parseWorkouts (parseWorkouts w) = parseWorkouts w := by
  unfold parseWorkouts
  rw [List.map_map]
  rfl

lemma analyzeTrainingBalance_post (now : ℤ) (w : List SessionRow) (s : List SetRow)
    (e : List ExerciseRow) (days : ℤ) :
    (analyzeTrainingBalance now w s e days).2 = (parseWorkouts w, s, e) := by
  simp only [analyzeTrainingBalance, parseWorkouts]
  split <;> rfl

/-- C7 counterexample: analyze_training_balance rewrites the caller's
workouts table in place: after the call the workout_date column holds the
parsed datetimes instead of the raw values supplied. -/
theorem c7_analyze_mutates_counterexample :
    (analyzeTrainingBalance 100 [{ id := 1, workout_date := .raw 0 }] [] [] 7).2.1 ≠
      [{ id := 1, workout_date := .raw 0 }] := by
  decide

/-- C7 (amended): detect_anomalies, get_health_score, train and
suggest_deload leave every caller-supplied table unchanged (each rebinds
its parameter to a sorted copy first); analyze_training_balance and
get_next_workout_recommendation leave the sets and exercise tables
unchanged but overwrite the workout_date column of the caller's workouts
table with its pd.to_datetime image. -/
theorem c7_frame (t : ℚ) (df : List SessionRow) (now days : ℤ) (w : List SessionRow)
    (s : List SetRow) (e : List ExerciseRow)
    (pick1 : List ExerciseRow → Option ExerciseRow)
    (pickK : ℕ → List ExerciseRow → List ExerciseRow) :
    (detectAnomaliesOp t df).2 = df ∧
    (getHealthScoreOp df).2 = df ∧
    (trainOp df).2 = df ∧
    (suggestDeload w s).2 = (w, s) ∧
    (analyzeTrainingBalance now w s e days).2 = (parseWorkouts w, s, e) ∧
    (getNextWorkout pick1 pickK now w s e).2 = (parseWorkouts w, s, e) := by
  refine ⟨rfl, rfl, rfl, ?_, analyzeTrainingBalance_post now w s e days, ?_⟩
  · simp only [suggestDeload]
    repeat' split
    all_goals rfl
  · simp only [getNextWorkout]
    have hpost := analyzeTrainingBalance_post now w s e 7
    cases hb : (analyzeTrainingBalance now w s e 7).1 with
    | noData m =>
      simp only [hb, hpost]
    | ok pd tw mgs mt lt bsc bra =>
      simp only [hb, hpost]
      have hidem : (parseWorkouts w).map
          (fun r => { r with workout_date := r.workout_date.toDatetime }) = parseWorkouts w :=
        parseWorkouts_idem w
      simp only [hidem]
      cases hLast : (sSort dateBefore (parseWorkouts w)).getLast? with
      | none => simp only [hLast]
      | some lastW =>
        simp only [hLast]
        repeat' split
        all_goals rfl

/-! ## Deload after sixteen sessions without a break (claim C9) -/

lemma sSort_of_chain {α : Type} (before : α → α → Bool) (l : List α)
    (h : List.Chain' (fun a b => before b a = false) l) : sSort before l = l := by
  induction l with
  | nil => rfl
  | cons x xs ih =>
    have hx : sSort before xs = xs := ih h.tail
    simp only [sSort, hx]
    cases xs with
    | nil => rfl
    | cons y ys =>
      have hxy : before y x = false := (List.chain'_cons.mp h).1
      simp [sInsert, hxy]

lemma chain'_enum {α : Type} (R : α → α → Prop) (l : List α)
    (h : List.Chain' R l) : List.Chain' (fun p q : ℕ × α => R p.2 q.2) l.enum := by
  have hmap : (l.enum.map Prod.snd) = l := List.enum_map_snd l
  rw [← hmap] at h
  exact (List.chain'_map Prod.snd).mp h

lemma gapsWithLabel_enumFrom :
    ∀ (l : List SessionRow) (n : ℕ),
      ((List.enumFrom n l).zip (List.enumFrom n l).tail).map
          (fun p => (p.2.1, p.2.2.workout_date.day - p.1.2.workout_date.day)) =
        List.enumFrom (n+1) ((l.zip l.tail).map
          (fun p => p.2.workout_date.day - p.1.workout_date.day)) := by
  intro l
  induction l with
  | nil => intro n; rfl
  | cons a t ih =>
    intro n
    cases t with
    | nil => rfl
    | cons b t2 =>
      have hrec := ih (n+1)
      simp only [List.enumFrom, List.zip, List.zipWith, List.map, List.tail] at hrec ⊢
      exact congrArg _ hrec

lemma enumFrom_one_eq_enum_map (l : List ℤ) :
    List.enumFrom 1 l = l.enum.map (fun q => (q.1 + 1, q.2)) := by
  have key : ∀ (m : List ℤ) (n : ℕ),
      List.enumFrom (n+1) m = (List.enumFrom n m).map (fun q => (q.1 + 1, q.2)) := by
    intro m
    induction m with
    | nil => intro n; rfl
    | cons x xs ih =>
      intro n
      simp only [List.enumFrom, List.map]
      exact congrArg _ (ih (n+1))
  exact key l 0

lemma workoutsSinceBreak_of_sorted (w : List SessionRow)
    (hsort : List.Chain' (fun a b => a.workout_date.day ≤ b.workout_date.day) w) :
    workoutsSinceBreak w = sessionsSinceLastGap w := by
  have hchain : List.Chain' (fun p q : ℕ × SessionRow => labeledDateBefore q p = false) w.enum := by
    refine List.Chain'.imp ?_ (chain'_enum _ w hsort)
    intro p q hpq
    simp only [labeledDateBefore, decide_eq_false_iff_not, not_lt]
    exact hpq
  have hg : ((w.enum).zip (w.enum).tail).map
      (fun p => (p.2.1, p.2.2.workout_date.day - p.1.2.workout_date.day)) =
      List.enumFrom 1 ((w.zip w.tail).map
        (fun p => p.2.workout_date.day - p.1.workout_date.day)) := by
    rw [show w.enum = List.enumFrom 0 w from rfl]
    exact gapsWithLabel_enumFrom w 0
  simp only [workoutsSinceBreak, sessionsSinceLastGap]
  rw [sSort_of_chain _ _ hchain]
  rw [hg]
  rw [enumFrom_one_eq_enum_map]
  rw [List.filter_map]
  rw [show ((fun g : ℕ × ℤ => decide (7 ≤ g.2)) ∘ fun q : ℕ × ℤ => (q.1 + 1, q.2)) =
        (fun q : ℕ × ℤ => decide (7 ≤ q.2)) from rfl]
  rw [List.getLast?_map]
  cases hlast : (((w.zip w.tail).map
      (fun p => p.2.workout_date.day - p.1.workout_date.day)).enum.filter
        (fun q => decide (7 ≤ q.2))).getLast? with
  | none => rfl
  | some q => rfl

lemma suggestDeload_true_of (w : List SessionRow) (s : List SetRow)
    (h8 : ¬ w.length < 8) (h21 : ¬ trailing12Range w < 21)
    (h16 : 16 ≤ workoutsSinceBreak w) :
    (suggestDeload w s).1.needs_deload = true := by
  simp only [suggestDeload]
  simp only [trailing12Range] at h21
  rw [if_neg h8, if_neg h21, if_pos h16]
  repeat' split
  all_goals rfl

/-- C9: for a chronologically ordered history with at least 8 sessions,
at least 21 days covered by the trailing 12 sessions, and at least 16
sessions elapsed since the last inter-session gap of 7 or more days,
suggest_deload answers needs_deload true (either through the rising
exertion branch or through the sessions-since-break branch). -/
theorem c9_deload_after_sixteen_sessions (w : List SessionRow) (s : List SetRow)
    (hsort : List.Chain' (fun a b => a.workout_date.day ≤ b.workout_date.day) w)
    (h8 : 8 ≤ w.length)
    (h21 : 21 ≤ trailing12Range w)
    (h16 : 16 ≤ sessionsSinceLastGap w) :
    (suggestDeload w s).1.needs_deload = true := by
  refine suggestDeload_true_of w s (by omega) (by omega) ?_
  rw [workoutsSinceBreak_of_sorted w hsort]
  exact h16

theorem c9_deload_after_sixteen_sessions_witness :
    (suggestDeload deloadHistory []).1.needs_deload = true :=
  c9_deload_after_sixteen_sessions deloadHistory []
    (by norm_num [deloadHistory, List.chain'_cons, List.chain'_singleton, DateVal.day])
    (by decide) (by decide) (by decide)

/-! ## Health score bounds (claim C5) -/

lemma round_le_of_le {α : Type} [LinearOrderedField α] [FloorRing α] {x y : α}
    (h : x ≤ y) : round x ≤ round y := by
  rw [round_eq, round_eq]
  exact Int.floor_le_floor (by linarith)

lemma le_pyRoundQ (a : ℤ) (x : ℚ) (h : (a:ℚ) ≤ x) : a ≤ pyRoundQ x := by
  unfold pyRoundQ
  split_ifs with h1 h2
  · exact Int.le_floor.mpr h
  · have := Int.le_floor.mpr h
    omega
  · have := round_le_of_le h
    rwa [round_intCast] at this

lemma pyRoundQ_le (x : ℚ) (b : ℤ) (h : x ≤ (b:ℚ)) : pyRoundQ x ≤ b := by
  unfold pyRoundQ
  split_ifs with h1 h2
  · have := Int.floor_le_floor h
    rwa [Int.floor_intCast] at this
  · have hb : (⌊x⌋ : ℚ) < (b:ℚ) := by linarith
    have : ⌊x⌋ < b := by exact_mod_cast hb
    omega
  · have := round_le_of_le h
    rwa [round_intCast] at this

lemma le_pyRoundR (a : ℤ) (x : ℝ) (h : (a:ℝ) ≤ x) : a ≤ pyRoundR x := by
  unfold pyRoundR
  split_ifs with h1 h2
  · exact Int.le_floor.mpr h
  · have := Int.le_floor.mpr h
    omega
  · have := round_le_of_le h
    rwa [round_intCast] at this

lemma pyRoundR_le (x : ℝ) (b : ℤ) (h : x ≤ (b:ℝ)) : pyRoundR x ≤ b := by
  unfold pyRoundR
  split_ifs with h1 h2
  · have := Int.floor_le_floor h
    rwa [Int.floor_intCast] at this
  · have hb : (⌊x⌋ : ℝ) < (b:ℝ) := by linarith
    have : ⌊x⌋ < b := by exact_mod_cast hb
    omega
  · have := round_le_of_le h
    rwa [round_intCast] at this

lemma clampRoundQ_bounds (e : ℚ) :
    0 ≤ pyRoundQ (min 25 (max 0 e)) ∧ pyRoundQ (min 25 (max 0 e)) ≤ 25 :=
  ⟨le_pyRoundQ 0 _ (by
      push_cast
      exact le_min (by norm_num) (le_max_left 0 e)),
    pyRoundQ_le _ 25 (by
      push_cast
      exact min_le_left _ _)⟩

lemma clampRoundR_bounds (e : ℝ) :
    0 ≤ pyRoundR (min 25 (max 0 e)) ∧ pyRoundR (min 25 (max 0 e)) ≤ 25 :=
  ⟨le_pyRoundR 0 _ (by
      push_cast
      exact le_min (by norm_num) (le_max_left 0 e)),
    pyRoundR_le _ 25 (by
      push_cast
      exact min_le_left _ _)⟩

lemma neutralRound_bounds : 0 ≤ pyRoundQ 12.5 ∧ pyRoundQ 12.5 ≤ 25 :=
  ⟨le_pyRoundQ 0 _ (by norm_num), pyRoundQ_le _ 25 (by norm_num)⟩

lemma qVarO_getD_nonneg (l : List ℚ) : 0 ≤ (qVarO l).getD 0 := by
  unfold qVarO
  split_ifs with h
  · simp
  · simp only [Option.getD_some]
    apply div_nonneg
    · apply List.sum_nonneg
      intro x hx
      obtain ⟨y, _, rfl⟩ := List.mem_map.mp hx
      positivity
    · positivity

lemma consistencySubscore_bounds (gaps : List ℚ) :
    0 ≤ consistencySubscore gaps ∧ consistencySubscore gaps ≤ 25 := by
  have hvar : (0:ℚ) ≤ (qVarO gaps).getD 0 := qVarO_getD_nonneg gaps
  have hpen : (0:ℚ) ≤ min 10 ((qVarO gaps).getD 0 / 2) :=
    le_min (by norm_num) (by linarith)
  have hbase : (if 2 ≤ qMean gaps ∧ qMean gaps ≤ 4 then (25:ℚ)
      else if qMean gaps < 2 then 20
      else if qMean gaps ≤ 7 then 20 - (qMean gaps - 4) * 3
      else max 0 (15 - (qMean gaps - 7))) ≤ 25 := by
    split_ifs with ha hb hc
    · norm_num
    · norm_num
    · push_neg at ha hb
      have h4 : 4 < qMean gaps := ha hb
      linarith
    · apply max_le (by norm_num)
      push_neg at hc
      linarith
  simp only [consistencySubscore]
  refine ⟨le_max_left 0 _, ?_⟩
  apply max_le (by norm_num)
  apply pyRoundQ_le
  push_cast
  by_cases hv : 10 < (qVarO gaps).getD 0
  · rw [if_pos hv]
    linarith
  · rw [if_neg hv]
    exact hbase

lemma progressSubscore_bounds (ones : List (Option ℚ)) :
    0 ≤ progressSubscore ones ∧ progressSubscore ones ≤ 25 := by
  simp only [progressSubscore]
  split_ifs with h1
  · exact neutralRound_bounds
  · cases hfm : qMeanO (ones.take (ones.length / 2)) with
    | none => exact neutralRound_bounds
    | some fh =>
      dsimp only
      split_ifs with h2
      · cases hsm : qMeanO (ones.drop (ones.length - ones.length / 2)) with
        | none => exact ⟨le_refl 0, by norm_num⟩
        | some sh =>
          dsimp only
          exact clampRoundQ_bounds _
      · exact neutralRound_bounds

lemma volumeSubscore_bounds (vols : List ℚ) :
    0 ≤ volumeSubscore vols ∧ volumeSubscore vols ≤ 25 := by
  simp only [volumeSubscore]
  split_ifs with h1 h2
  · norm_num
  · norm_num
  · exact clampRoundR_bounds _

lemma recoverySubscore_bounds (pes : List (Option ℚ)) :
    0 ≤ recoverySubscore pes ∧ recoverySubscore pes ≤ 25 := by
  simp only [recoverySubscore]
  constructor
  · exact le_max_left 0 _
  · apply max_le (by norm_num)
    have : (0:ℤ) ≤ 3 * (((pes.foldl (fun (acc : ℕ × ℕ) pe =>
        match pe with
        | some q => if 8 ≤ q then (acc.1 + 1, max acc.2 (acc.1 + 1)) else (0, acc.2)
        | none => (0, acc.2)) (0, 0)).2 : ℕ) : ℤ) := by positivity
    omega

/-- C5: with at least 5 sessions, get_health_score returns a breakdown of
four sub-scores, each in [0, 25], whose sum is the reported total score,
which therefore lies in [0, 100]. -/
theorem c5_health_score_bounds (df : List SessionRow) (h5 : 5 ≤ df.length) :
    ∃ b : HealthBreakdown,
      getHealthScore df =
        .ok (b.consistency + b.progress + b.volume + b.recovery)
          (healthRating (b.consistency + b.progress + b.volume + b.recovery)) b
          (healthRecommendations b) ∧
      0 ≤ b.consistency ∧ b.consistency ≤ 25 ∧
      0 ≤ b.progress ∧ b.progress ≤ 25 ∧
      0 ≤ b.volume ∧ b.volume ≤ 25 ∧
      0 ≤ b.recovery ∧ b.recovery ≤ 25 ∧
      0 ≤ b.consistency + b.progress + b.volume + b.recovery ∧
      b.consistency + b.progress + b.volume + b.recovery ≤ 100 := by
  simp only [getHealthScore]
  rw [if_neg (by omega : ¬ df.length < 5)]
  refine ⟨{ consistency := consistencySubscore (dayGaps (sortValuesByDate df)),
            progress := progressSubscore ((sortValuesByDate df).map (·.estimated_1rm)),
            volume := volumeSubscore ((sortValuesByDate df).map (·.total_volume)),
            recovery := recoverySubscore ((sortValuesByDate df).map (·.perceived_exertion)) },
    rfl, ?_⟩
  obtain ⟨hc1, hc2⟩ := consistencySubscore_bounds (dayGaps (sortValuesByDate df))
  obtain ⟨hp1, hp2⟩ := progressSubscore_bounds ((sortValuesByDate df).map (·.estimated_1rm))
  obtain ⟨hv1, hv2⟩ := volumeSubscore_bounds ((sortValuesByDate df).map (·.total_volume))
  obtain ⟨hr1, hr2⟩ := recoverySubscore_bounds ((sortValuesByDate df).map (·.perceived_exertion))
  refine ⟨hc1, hc2, hp1, hp2, hv1, hv2, hr1, hr2, ?_, ?_⟩
  · dsimp only
    omega
  · dsimp only
    omega

theorem c5_health_score_bounds_witness :
    ∃ b : HealthBreakdown,
      getHealthScore
        [{ id := 1, workout_date := .raw 0, total_volume := 100, estimated_1rm := some 100 },
          { id := 2, workout_date := .raw 3, total_volume := 100, estimated_1rm := some 102 },
          { id := 3, workout_date := .raw 6, total_volume := 100, estimated_1rm := some 104 },
          { id := 4, workout_date := .raw 9, total_volume := 100, estimated_1rm := some 106 },
          { id := 5, workout_date := .raw 12, total_volume := 100, estimated_1rm := some 108 }] =
        .ok (b.consistency + b.progress + b.volume + b.recovery)
          (healthRating (b.consistency + b.progress + b.volume + b.recovery)) b
          (healthRecommendations b) ∧
      0 ≤ b.consistency ∧ b.consistency ≤ 25 ∧
      0 ≤ b.progress ∧ b.progress ≤ 25 ∧
      0 ≤ b.volume ∧ b.volume ≤ 25 ∧
      0 ≤ b.recovery ∧ b.recovery ≤ 25 ∧
      0 ≤ b.consistency + b.progress + b.volume + b.recovery ∧
      b.consistency + b.progress + b.volume + b.recovery ≤ 100 :=
  c5_health_score_bounds _ (by decide)

/-! ## The concrete forecast scenario (claim C8) -/

lemma train_c8 : train c8Rows = .ok c8State := by
  norm_num [train, c8Rows, c8State, c8X, sortValuesByDate, sSort, sInsert, dateBefore,
    DateVal.day, featureRows, cumSums, cumSumsAux, qMean, List.filterMap_cons,
    List.range_succ]
  rintro (h | h | h) <;> simp at h

lemma sqrt_eq_of_sq {a v : ℝ} (ha : 0 ≤ a) (h : a^2 = v) : Real.sqrt v = a := by
  rw [← h]
  exact Real.sqrt_sq ha

lemma sqrt6_sq : Real.sqrt 6 ^ 2 = 6 := Real.sq_sqrt (by norm_num)

lemma sqrt6_pos : 0 < Real.sqrt 6 := Real.sqrt_pos.mpr (by norm_num)

lemma scale_c8_col0 : scaleOf [(0:ℚ), 7, 14] = 7 * Real.sqrt 6 / 3 := by
  have hv : qPopVar [(0:ℚ), 7, 14] = 98/3 := by norm_num [qPopVar, qMean]
  rw [scaleOf, hv, if_neg (by norm_num)]
  rw [show (((98:ℚ)/3 : ℚ) : ℝ) = 98/3 by norm_num]
  apply sqrt_eq_of_sq (by positivity)
  nlinarith [sqrt6_sq]

lemma scale_c8_col1 : scaleOf [(1:ℚ), 2, 3] = Real.sqrt 6 / 3 := by
  have hv : qPopVar [(1:ℚ), 2, 3] = 2/3 := by norm_num [qPopVar, qMean]
  rw [scaleOf, hv, if_neg (by norm_num)]
  rw [show (((2:ℚ)/3 : ℚ) : ℝ) = 2/3 by norm_num]
  apply sqrt_eq_of_sq (by positivity)
  nlinarith [sqrt6_sq]

lemma scale_c8_col2 : scaleOf [(0:ℚ), 0, 0] = 1 := by
  have hv : qPopVar [(0:ℚ), 0, 0] = 0 := by norm_num [qPopVar, qMean]
  rw [scaleOf, hv, if_pos rfl]

lemma scale_c8_col3 : scaleOf [(100:ℚ), 205/2, 105] = 5 * Real.sqrt 6 / 6 := by
  have hv : qPopVar [(100:ℚ), 205/2, 105] = 25/6 := by norm_num [qPopVar, qMean]
  rw [scaleOf, hv, if_neg (by norm_num)]
  rw [show (((25:ℚ)/6 : ℚ) : ℝ) = 25/6 by norm_num]
  apply sqrt_eq_of_sq (by positivity)
  nlinarith [sqrt6_sq]

lemma scale_c8_col4 : scaleOf [(7:ℚ), 7, 7] = 1 := by
  have hv : qPopVar [(7:ℚ), 7, 7] = 0 := by norm_num [qPopVar, qMean]
  rw [scaleOf, hv, if_pos rfl]

lemma entry_div_scale (a c d k : ℝ) (hc : c ≠ 0) (hd : d ≠ 0) (h : a * d = 3 * k * c) :
    a / (c * Real.sqrt 6 / d) = k * (Real.sqrt 6 / 2) := by
  have h6 : Real.sqrt 6 * Real.sqrt 6 = 6 := Real.mul_self_sqrt (by norm_num)
  have h6ne : Real.sqrt 6 ≠ 0 := ne_of_gt sqrt6_pos
  field_simp
  linear_combination 2 * h - k * c * h6

lemma c8X_col0 : c8X.map (fun t => t 0) = [0, 7, 14] := rfl
lemma c8X_col1 : c8X.map (fun t => t 1) = [1, 2, 3] := rfl
lemma c8X_col2 : c8X.map (fun t => t 2) = [0, 0, 0] := rfl
lemma c8X_col3 : c8X.map (fun t => t 3) = [100, 205/2, 105] := rfl
lemma c8X_col4 : c8X.map (fun t => t 4) = [7, 7, 7] := rfl

/-- One scaled training-matrix entry. -/
lemma scaledEntry_c8 (v : Fin 5 → ℚ) (j : Fin 5) :
    scaledVec c8X v j =
      (((v j : ℚ) : ℝ) - ((qMean (c8X.map (fun t => t j)) : ℚ) : ℝ)) /
        scaleOf (c8X.map (fun t => t j)) := rfl

lemma scaledVec_c8_eval (v : Fin 5 → ℚ) (k0 k1 k3 : ℝ)
    (h0 : (((v 0 : ℚ) : ℝ) - 7) * 3 = 3 * k0 * 7)
    (h1 : (((v 1 : ℚ) : ℝ) - 2) * 3 = 3 * k1 * 1)
    (h2 : v 2 = 0)
    (h3 : (((v 3 : ℚ) : ℝ) - 205/2) * 6 = 3 * k3 * 5)
    (h4 : v 4 = 7) :
    scaledVec c8X v = ![k0 * (Real.sqrt 6 / 2), k1 * (Real.sqrt 6 / 2), 0,
      k3 * (Real.sqrt 6 / 2), 0] := by
  have hm0 : qMean [(0:ℚ), 7, 14] = 7 := by norm_num [qMean]
  have hm1 : qMean [(1:ℚ), 2, 3] = 2 := by norm_num [qMean]
  have hm2 : qMean [(0:ℚ), 0, 0] = 0 := by norm_num [qMean]
  have hm3 : qMean [(100:ℚ), 205/2, 105] = 205/2 := by norm_num [qMean]
  have hm4 : qMean [(7:ℚ), 7, 7] = 7 := by norm_num [qMean]
  funext j
  fin_cases j
  · rw [show (⟨0, by norm_num⟩ : Fin 5) = (0 : Fin 5) from rfl, scaledEntry_c8,
      c8X_col0, hm0, scale_c8_col0]
    rw [show ((k0 * (Real.sqrt 6 / 2) : ℝ)) =
      ![k0 * (Real.sqrt 6 / 2), k1 * (Real.sqrt 6 / 2), 0, k3 * (Real.sqrt 6 / 2), 0] 0
      from rfl] at *
    exact entry_div_scale _ 7 3 k0 (by norm_num) (by norm_num) (by push_cast; linarith)
  · rw [show (⟨1, by norm_num⟩ : Fin 5) = (1 : Fin 5) from rfl, scaledEntry_c8,
      c8X_col1, hm1, scale_c8_col1]
    have := entry_div_scale ((((v 1 : ℚ) : ℝ) - 2)) 1 3 k1 (by norm_num) (by norm_num)
      (by push_cast; linarith)
    simpa using this
  · rw [show (⟨2, by norm_num⟩ : Fin 5) = (2 : Fin 5) from rfl, scaledEntry_c8,
      c8X_col2, hm2, scale_c8_col2, h2]
    norm_num
  · rw [show (⟨3, by norm_num⟩ : Fin 5) = (3 : Fin 5) from rfl, scaledEntry_c8,
      c8X_col3, hm3, scale_c8_col3]
    have := entry_div_scale ((((v 3 : ℚ) : ℝ) - 205/2)) 5 6 k3 (by norm_num) (by norm_num)
      (by push_cast; linarith)
    simpa using this
  · rw [show (⟨4, by norm_num⟩ : Fin 5) = (4 : Fin 5) from rfl, scaledEntry_c8,
      c8X_col4, hm4, scale_c8_col4, h4]
    norm_num

/-- The standardized training design: three identical nonzero columns. -/
lemma scaledX_c8 :
    scaledX c8X =
      [![(-1) * (Real.sqrt 6/2), (-1) * (Real.sqrt 6/2), 0, (-1) * (Real.sqrt 6/2), 0],
        ![0 * (Real.sqrt 6/2), 0 * (Real.sqrt 6/2), 0, 0 * (Real.sqrt 6/2), 0],
        ![1 * (Real.sqrt 6/2), 1 * (Real.sqrt 6/2), 0, 1 * (Real.sqrt 6/2), 0]] := by
  rw [show scaledX c8X = [scaledVec c8X ![0, 1, 0, 100, 7],
    scaledVec c8X ![7, 2, 0, 205/2, 7], scaledVec c8X ![14, 3, 0, 105, 7]] from rfl]
  rw [scaledVec_c8_eval ![0, 1, 0, 100, 7] (-1) (-1) (-1) (by norm_num) (by norm_num)
    rfl (by norm_num) rfl]
  rw [scaledVec_c8_eval ![7, 2, 0, 205/2, 7] 0 0 0 (by norm_num) (by norm_num)
    rfl (by norm_num) rfl]
  rw [scaledVec_c8_eval ![14, 3, 0, 105, 7] 1 1 1 (by norm_num) (by norm_num)
    rfl (by norm_num) rfl]

lemma ys_c8 : c8State.y.map (fun q => ((q : ℚ) : ℝ)) = [100, 105, 110] := by
  norm_num [c8State]

lemma centerY_c8 : centerY [(100:ℝ), 105, 110] = [-5, 0, 5] := by
  norm_num [centerY, rMean]

lemma colMean5_scaledX_c8 : colMean5 (scaledX c8X) = fun _ => 0 := by
  rw [scaledX_c8]
  funext j
  fin_cases j <;> simp [colMean5, rMean] <;> ring

lemma centerX_eq_self_of_colMean_zero (X : List (Fin 5 → ℝ))
    (h : colMean5 X = fun _ => 0) : centerX X = X := by
  unfold centerX
  rw [h]
  simp

lemma ssRes_c8 (w : Fin 5 → ℝ) :
    ssRes (scaledX c8X) [-5, 0, 5] w =
      2 * (5 - Real.sqrt 6/2 * (w 0 + w 1 + w 3))^2 := by
  rw [scaledX_c8]
  simp [ssRes, dot5]
  ring

lemma normSq5_expand (w : Fin 5 → ℝ) :
    normSq5 w = w 0^2 + w 1^2 + w 2^2 + w 3^2 + w 4^2 := by
  simp [normSq5, dot5]
  ring

lemma c8LinCoef_sum :
    c8LinCoef 0 + c8LinCoef 1 + c8LinCoef 3 = 3 * (5 * Real.sqrt 6 / 9) := by
  simp [c8LinCoef]
  ring

lemma ssRes_c8LinCoef : ssRes (scaledX c8X) [-5, 0, 5] c8LinCoef = 0 := by
  rw [ssRes_c8, c8LinCoef_sum]
  have h6 := sqrt6_sq
  nlinarith [h6]

lemma normSq5_c8LinCoef : normSq5 c8LinCoef = 50 / 9 := by
  rw [normSq5_expand]
  have h6 := sqrt6_sq
  simp only [c8LinCoef]
  norm_num
  nlinarith [h6]

lemma dot5_colMean_zero (w : Fin 5 → ℝ) : dot5 (fun _ => (0:ℝ)) w = 0 := by
  simp [dot5]

/-- The minimum-norm least-squares fit of the standardized c8 system is
unique: coefficient 5 sqrt 6 / 9 on each of the three informative columns,
0 on the constant ones, intercept 105. -/
lemma linreg_c8_unique (w : Fin 5 → ℝ) (b : ℝ)
    (h : IsLinReg (scaledX c8X) [100, 105, 110] w b) : w = c8LinCoef ∧ b = 105 := by
  obtain ⟨hls, hmin, hb⟩ := h
  rw [centerX_eq_self_of_colMean_zero _ colMean5_scaledX_c8, centerY_c8] at hls hmin
  have h6 := sqrt6_sq
  have hw_res : ssRes (scaledX c8X) [-5, 0, 5] w = 0 := by
    have h1 := hls c8LinCoef
    rw [ssRes_c8LinCoef] at h1
    have h2 : 0 ≤ ssRes (scaledX c8X) [-5, 0, 5] w := by
      rw [ssRes_c8]
      positivity
    linarith
  have hp : Real.sqrt 6 / 2 * (w 0 + w 1 + w 3) = 5 := by
    rw [ssRes_c8] at hw_res
    have h3 : (5 - Real.sqrt 6 / 2 * (w 0 + w 1 + w 3))^2 = 0 := by linarith
    have h4 := (pow_eq_zero_iff two_ne_zero).mp h3
    linarith
  have hnorm : normSq5 w ≤ 50 / 9 := by
    have := hmin c8LinCoef (fun w'' => by
      rw [ssRes_c8LinCoef, ssRes_c8]
      positivity)
    rwa [normSq5_c8LinCoef] at this
  rw [normSq5_expand] at hnorm
  have hsp : Real.sqrt 6 * (w 0 + w 1 + w 3) = 10 := by linear_combination 2 * hp
  have hp2 : (w 0 + w 1 + w 3)^2 = 50 / 3 := by nlinarith [hsp, h6]
  have key : (w 0 - w 1)^2 + (w 1 - w 3)^2 + (w 0 - w 3)^2 + 3*(w 2)^2 + 3*(w 4)^2 ≤ 0 := by
    nlinarith [hnorm, hp2]
  have h01 : w 0 = w 1 := by
    have hz : (w 0 - w 1)^2 = 0 := le_antisymm
      (by nlinarith [key, sq_nonneg (w 1 - w 3), sq_nonneg (w 0 - w 3),
        sq_nonneg (w 2), sq_nonneg (w 4)]) (sq_nonneg _)
    have := (pow_eq_zero_iff two_ne_zero).mp hz
    linarith
  have h03 : w 0 = w 3 := by
    have hz : (w 0 - w 3)^2 = 0 := le_antisymm
      (by nlinarith [key, sq_nonneg (w 1 - w 3), sq_nonneg (w 0 - w 1),
        sq_nonneg (w 2), sq_nonneg (w 4)]) (sq_nonneg _)
    have := (pow_eq_zero_iff two_ne_zero).mp hz
    linarith
  have h2z : w 2 = 0 := by
    have hz : (w 2)^2 = 0 := le_antisymm
      (by nlinarith [key, sq_nonneg (w 1 - w 3), sq_nonneg (w 0 - w 1),
        sq_nonneg (w 0 - w 3), sq_nonneg (w 4)]) (sq_nonneg _)
    exact (pow_eq_zero_iff two_ne_zero).mp hz
  have h4z : w 4 = 0 := by
    have hz : (w 4)^2 = 0 := le_antisymm
      (by nlinarith [key, sq_nonneg (w 1 - w 3), sq_nonneg (w 0 - w 1),
        sq_nonneg (w 0 - w 3), sq_nonneg (w 2)]) (sq_nonneg _)
    exact (pow_eq_zero_iff two_ne_zero).mp hz
  rw [← h01, ← h03] at hsp
  have hw0 : w 0 = 5 * Real.sqrt 6 / 9 := by
    linear_combination (Real.sqrt 6 / 18) * hsp - (w 0 / 6) * h6
  constructor
  · funext j
    fin_cases j
    · show w 0 = c8LinCoef 0
      exact hw0
    · show w 1 = c8LinCoef 1
      rw [← h01]
      exact hw0
    · show w 2 = c8LinCoef 2
      exact h2z
    · show w 3 = c8LinCoef 3
      rw [← h03]
      exact hw0
    · show w 4 = c8LinCoef 4
      exact h4z
  · rw [hb, colMean5_scaledX_c8, dot5_colMean_zero]
    norm_num [rMean]

/-- The ridge minimizer cannot fit the c8 system exactly, and its intercept
is 105. -/
lemma ridge_c8_imperfect (w : Fin 5 → ℝ) (b : ℝ)
    (h : IsRidge (scaledX c8X) [100, 105, 110] w b) :
    0 < ssRes (scaledX c8X) [-5, 0, 5] w ∧ b = 105 := by
  obtain ⟨hmin, hb⟩ := h
  rw [centerX_eq_self_of_colMean_zero _ colMean5_scaledX_c8, centerY_c8] at hmin
  have h6 := sqrt6_sq
  constructor
  · by_contra hcon
    push_neg at hcon
    have hres0 : ssRes (scaledX c8X) [-5, 0, 5] w = 0 := le_antisymm hcon
      (by rw [ssRes_c8]; positivity)
    have hp : Real.sqrt 6 / 2 * (w 0 + w 1 + w 3) = 5 := by
      rw [ssRes_c8] at hres0
      have h3 : (5 - Real.sqrt 6 / 2 * (w 0 + w 1 + w 3))^2 = 0 := by linarith
      have h4 := (pow_eq_zero_iff two_ne_zero).mp h3
      linarith
    have hJ := hmin c8RidgeCoef
    rw [hres0] at hJ
    have hcandRes : ssRes (scaledX c8X) [-5, 0, 5] c8RidgeCoef = 1/2 := by
      rw [ssRes_c8]
      have hsum : c8RidgeCoef 0 + c8RidgeCoef 1 + c8RidgeCoef 3 =
          3 * (Real.sqrt 6 / 2) := by
        simp [c8RidgeCoef]
        ring
      rw [hsum]
      nlinarith [h6]
    have hcandNorm : normSq5 c8RidgeCoef = 9/2 := by
      rw [normSq5_expand]
      simp only [c8RidgeCoef]
      norm_num
      nlinarith [h6]
    rw [hcandRes, hcandNorm] at hJ
    have hsp : Real.sqrt 6 * (w 0 + w 1 + w 3) = 10 := by linear_combination 2 * hp
    have hp2 : (w 0 + w 1 + w 3)^2 = 50 / 3 := by nlinarith [hsp, h6]
    rw [normSq5_expand] at hJ
    nlinarith [hJ, hp2, sq_nonneg (w 0 - w 1), sq_nonneg (w 1 - w 3),
      sq_nonneg (w 0 - w 3), sq_nonneg (w 2), sq_nonneg (w 4)]
  · rw [hb, colMean5_scaledX_c8, dot5_colMean_zero]
    norm_num [rMean]

lemma r2Score_c8 (w : Fin 5 → ℝ) :
    r2Score (scaledX c8X) [100, 105, 110] w 105 =
      1 - ssRes (scaledX c8X) [-5, 0, 5] w / 50 := by
  rw [scaledX_c8]
  simp [r2Score, ssRes, dot5, rMean]
  ring

lemma predictor_c8_1 :
    fittedPredictor c8X c8LinCoef 105 (predictStepVec c8State 1) = 350/3 := by
  simp only [fittedPredictor]
  rw [scaledVec_c8_eval (predictStepVec c8State 1) 2 2 3
    (by norm_num [predictStepVec, c8State])
    (by norm_num [predictStepVec, c8State])
    (by norm_num [predictStepVec, c8State])
    (by norm_num [predictStepVec, c8State])
    (by norm_num [predictStepVec, c8State])]
  simp [dot5, c8LinCoef]
  linear_combination (35/18) * sqrt6_sq

lemma predictor_c8_2 :
    fittedPredictor c8X c8LinCoef 105 (predictStepVec c8State 2) = 120 := by
  simp only [fittedPredictor]
  rw [scaledVec_c8_eval (predictStepVec c8State 2) 3 3 3
    (by norm_num [predictStepVec, c8State])
    (by norm_num [predictStepVec, c8State])
    (by norm_num [predictStepVec, c8State])
    (by norm_num [predictStepVec, c8State])
    (by norm_num [predictStepVec, c8State])]
  simp [dot5, c8LinCoef]
  linear_combination (5/2) * sqrt6_sq

lemma round1R_350_3 : round1R (350/3 : ℝ) = 1167/10 := by
  rw [round1R, show (10:ℝ) * (350/3) = 3500/3 by norm_num]
  have hfl : ⌊(3500/3 : ℝ)⌋ = 1166 := by
    rw [Int.floor_eq_iff]
    norm_num
  rw [pyRoundR, hfl, if_neg (by norm_num), round_eq]
  rw [show (3500/3 : ℝ) + 1/2 = 7003/6 by norm_num]
  rw [show ⌊(7003/6 : ℝ)⌋ = 1167 from by
    rw [Int.floor_eq_iff]
    norm_num]
  norm_num

lemma sessionsAhead_c8 : sessionsAheadFor c8State 14 = 2 := by
  norm_num [sessionsAheadFor, c8State, pyIntQ]
  decide

lemma round1R_120 : round1R (120 : ℝ) = 120 := by
  rw [round1R, show (10:ℝ) * 120 = 1200 by norm_num]
  have hfl : ⌊(1200 : ℝ)⌋ = 1200 := by
    rw [Int.floor_eq_iff]
    norm_num
  rw [pyRoundR, hfl, if_neg (by norm_num), round_eq]
  rw [show (1200 : ℝ) + 1/2 = 2401/2 by norm_num]
  rw [show ⌊(2401/2 : ℝ)⌋ = 1200 from by
    rw [Int.floor_eq_iff]
    norm_num]
  norm_num

/-- C8: on the three-session history with dates 0, 7, 14 and estimated
1RMs 100, 105, 110, train stores the expected state and selects the plain
linear model (its in-sample R-squared is 1, the ridge fit's is below 1),
and predict_future(days_ahead=14) then returns a nonempty sequence whose
predicted_1rm values are strictly increasing and whose days_from_now is
positive throughout.  The fitted models enter through their least-squares
characterizations; the selection mirrors the strict score comparison of
the source. -/
theorem c8_train_then_predict_increasing (wl wr : Fin 5 → ℝ) (bl br : ℝ)
    (hlin : IsLinReg (scaledX c8State.X) (c8State.y.map (fun q => ((q : ℚ) : ℝ))) wl bl)
    (hridge : IsRidge (scaledX c8State.X) (c8State.y.map (fun q => ((q : ℚ) : ℝ))) wr br) :
    train c8Rows = .ok c8State ∧
    List.Chain' (fun a b => a.predicted_1rm < b.predicted_1rm)
      (predictFuture
        (if r2Score (scaledX c8State.X) (c8State.y.map (fun q => ((q : ℚ) : ℝ))) wr br >
            r2Score (scaledX c8State.X) (c8State.y.map (fun q => ((q : ℚ) : ℝ))) wl bl
          then fittedPredictor c8State.X wr br
          else fittedPredictor c8State.X wl bl) c8State 14) ∧
    predictFuture
        (if r2Score (scaledX c8State.X) (c8State.y.map (fun q => ((q : ℚ) : ℝ))) wr br >
            r2Score (scaledX c8State.X) (c8State.y.map (fun q => ((q : ℚ) : ℝ))) wl bl
          then fittedPredictor c8State.X wr br
          else fittedPredictor c8State.X wl bl) c8State 14 ≠ [] ∧
    ∀ p ∈ predictFuture
        (if r2Score (scaledX c8State.X) (c8State.y.map (fun q => ((q : ℚ) : ℝ))) wr br >
            r2Score (scaledX c8State.X) (c8State.y.map (fun q => ((q : ℚ) : ℝ))) wl bl
          then fittedPredictor c8State.X wr br
          else fittedPredictor c8State.X wl bl) c8State 14, 0 < p.days_from_now := by
  rw [show c8State.X = c8X from rfl, ys_c8] at hlin hridge ⊢
  obtain ⟨hwl, hbl⟩ := linreg_c8_unique wl bl hlin
  obtain ⟨hpos, hbr⟩ := ridge_c8_imperfect wr br hridge
  have hr2l : r2Score (scaledX c8X) [100, 105, 110] wl bl = 1 := by
    rw [hbl, r2Score_c8, hwl, ssRes_c8LinCoef]
    norm_num
  have hr2r : r2Score (scaledX c8X) [100, 105, 110] wr br < 1 := by
    rw [hbr, r2Score_c8]
    have : 0 < ssRes (scaledX c8X) [-5, 0, 5] wr / 50 :=
      div_pos hpos (by norm_num)
    linarith
  have hsel : ¬ (r2Score (scaledX c8X) [100, 105, 110] wr br >
      r2Score (scaledX c8X) [100, 105, 110] wl bl) := by
    rw [hr2l]
    exact not_lt.mpr (le_of_lt hr2r)
  rw [if_neg hsel, hwl, hbl]
  have hexpand : predictFuture (fittedPredictor c8X c8LinCoef 105) c8State 14 =
      (predictRowsAux (fittedPredictor c8X c8LinCoef 105) c8State 1 0 2).map (·.2) := by
    rw [predictFuture, predictFutureLog, sessionsAhead_c8]
  rw [hexpand]
  rw [show (2:ℕ) = 1 + 1 from rfl]
  simp only [predictRowsAux, List.map_cons, List.map_nil]
  rw [predictor_c8_1]
  rw [show (1 + 1 : ℕ) = 2 from rfl, predictor_c8_2]
  rw [round1R_350_3, round1R_120]
  refine ⟨train_c8, ?_, by simp, ?_⟩
  · simp only [List.chain'_cons, List.chain'_singleton, and_true]
    norm_num
  · intro p hp
    simp only [List.mem_cons, List.not_mem_nil, or_false] at hp
    rcases hp with h | h <;> rw [h] <;> norm_num [c8State, pyIntQ] <;> decide

lemma ssRes_c8RidgeCoef : ssRes (scaledX c8X) [-5, 0, 5] c8RidgeCoef = 1/2 := by
  rw [ssRes_c8]
  have hsum : c8RidgeCoef 0 + c8RidgeCoef 1 + c8RidgeCoef 3 = 3 * (Real.sqrt 6 / 2) := by
    simp [c8RidgeCoef]
    ring
  rw [hsum]
  nlinarith [sqrt6_sq]

lemma normSq5_c8RidgeCoef : normSq5 c8RidgeCoef = 9/2 := by
  rw [normSq5_expand]
  simp only [c8RidgeCoef]
  norm_num
  nlinarith [sqrt6_sq]

lemma norm_lb_of_exact_fit (w : Fin 5 → ℝ)
    (hres : ssRes (scaledX c8X) [-5, 0, 5] w = 0) : 50/9 ≤ normSq5 w := by
  have h6 := sqrt6_sq
  have hp : Real.sqrt 6 / 2 * (w 0 + w 1 + w 3) = 5 := by
    rw [ssRes_c8] at hres
    have h3 : (5 - Real.sqrt 6 / 2 * (w 0 + w 1 + w 3))^2 = 0 := by linarith
    have h4 := (pow_eq_zero_iff two_ne_zero).mp h3
    linarith
  have hsp : Real.sqrt 6 * (w 0 + w 1 + w 3) = 10 := by linear_combination 2 * hp
  have hp2 : (w 0 + w 1 + w 3)^2 = 50 / 3 := by nlinarith [hsp, h6]
  rw [normSq5_expand]
  nlinarith [hp2, sq_nonneg (w 0 - w 1), sq_nonneg (w 1 - w 3), sq_nonneg (w 0 - w 3),
    sq_nonneg (w 2), sq_nonneg (w 4)]

lemma c8_linreg_holds : IsLinReg (scaledX c8X) [100, 105, 110] c8LinCoef 105 := by
  have hcx := centerX_eq_self_of_colMean_zero _ colMean5_scaledX_c8
  refine ⟨?_, ?_, ?_⟩
  · intro w'
    rw [hcx, centerY_c8, ssRes_c8LinCoef, ssRes_c8]
    positivity
  · intro w' hw'
    rw [hcx, centerY_c8] at hw'
    have hres : ssRes (scaledX c8X) [-5, 0, 5] w' = 0 := by
      have h1 := hw' c8LinCoef
      rw [ssRes_c8LinCoef] at h1
      have h2 : 0 ≤ ssRes (scaledX c8X) [-5, 0, 5] w' := by
        rw [ssRes_c8]
        positivity
      linarith
    rw [normSq5_c8LinCoef]
    exact norm_lb_of_exact_fit w' hres
  · rw [colMean5_scaledX_c8, dot5_colMean_zero]
    norm_num [rMean]

lemma c8_ridge_holds : IsRidge (scaledX c8X) [100, 105, 110] c8RidgeCoef 105 := by
  have hcx := centerX_eq_self_of_colMean_zero _ colMean5_scaledX_c8
  refine ⟨?_, ?_⟩
  · intro w
    rw [hcx, centerY_c8, ssRes_c8RidgeCoef, normSq5_c8RidgeCoef, ssRes_c8 w,
      normSq5_expand w]
    have h6 := sqrt6_sq
    nlinarith [h6, sq_nonneg (w 0 + w 1 + w 3 - 3 * (Real.sqrt 6 / 2)),
      sq_nonneg (w 0 - w 1), sq_nonneg (w 1 - w 3), sq_nonneg (w 0 - w 3),
      sq_nonneg (w 2), sq_nonneg (w 4)]
  · rw [colMean5_scaledX_c8, dot5_colMean_zero]
    norm_num [rMean]

theorem c8_train_then_predict_increasing_witness :
    train c8Rows = .ok c8State ∧
    List.Chain' (fun a b => a.predicted_1rm < b.predicted_1rm)
      (predictFuture
        (if r2Score (scaledX c8State.X) (c8State.y.map (fun q => ((q : ℚ) : ℝ)))
              c8RidgeCoef 105 >
            r2Score (scaledX c8State.X) (c8State.y.map (fun q => ((q : ℚ) : ℝ)))
              c8LinCoef 105
          then fittedPredictor c8State.X c8RidgeCoef 105
          else fittedPredictor c8State.X c8LinCoef 105) c8State 14) ∧
    predictFuture
        (if r2Score (scaledX c8State.X) (c8State.y.map (fun q => ((q : ℚ) : ℝ)))
              c8RidgeCoef 105 >
            r2Score (scaledX c8State.X) (c8State.y.map (fun q => ((q : ℚ) : ℝ)))
              c8LinCoef 105
          then fittedPredictor c8State.X c8RidgeCoef 105
          else fittedPredictor c8State.X c8LinCoef 105) c8State 14 ≠ [] ∧
    ∀ p ∈ predictFuture
        (if r2Score (scaledX c8State.X) (c8State.y.map (fun q => ((q : ℚ) : ℝ)))
              c8RidgeCoef 105 >
            r2Score (scaledX c8State.X) (c8State.y.map (fun q => ((q : ℚ) : ℝ)))
              c8LinCoef 105
          then fittedPredictor c8State.X c8RidgeCoef 105
          else fittedPredictor c8State.X c8LinCoef 105) c8State 14,
      0 < p.days_from_now :=
  c8_train_then_predict_increasing c8LinCoef c8RidgeCoef 105 105
    (by rw [show c8State.X = c8X from rfl, ys_c8]
        exact c8_linreg_holds)
    (by rw [show c8State.X = c8X from rfl, ys_c8]
        exact c8_ridge_holds)

end WorkoutTracker
